import Mathlib

/-!
Shallow embedding of the minimum-area enclosing triangle implementation in
`bugtest_minEnclosingTriangle.cpp` (namespace `minEnclosingTriangle`).

Modelling conventions:
* C++ `double` / `float` values are modelled as real numbers; floating-point
  rounding and the `double`-to-`float` narrowing casts are not modelled.
* `std::atan2` is modelled by the piecewise `arctan`-based function `atan2`
  below, which agrees with the C library semantics on all real inputs
  (signed zeros do not exist in `ℝ`; `atan2 0 0 = 0`).
* Fatal errors (`CV_Error`, and the `CV_Assert` inside
  `lineEquationDeterminedByPoints`) are modelled with `Except String`.
* The three `while` loops of the sweep are modelled with an explicit fuel
  parameter; `none` means the fuel ran out before the loop guard failed.
* Polygon indexing `polygon[i]` is modelled by `pget`, which returns the
  point `(0, 0)` when out of range (all source call sites are in range).
-/

namespace MET

noncomputable section

open scoped Classical

/-- Model of `cv::Point2f` (coordinates modelled as reals). -/
structure Point2f where
  x : ℝ
  y : ℝ
deriving DecidableEq

/-- A polygon is the `std::vector<cv::Point2f>` of its vertices. -/
abbrev Poly := List Point2f

/-- Model of `polygon[i]`: list indexing with default point `(0, 0)`. -/
def pget (poly : Poly) (i : ℕ) : Point2f :=
  poly.getD i ⟨0, 0⟩

/-- Threshold value for comparisons: `#define EPSILON 1E-5`. -/
def EPSILON : ℝ := 1 / 100000

/-- Constant `INTERSECTS_BELOW`. -/
def INTERSECTS_BELOW : ℕ := 1

/-- Constant `INTERSECTS_ABOVE`. -/
def INTERSECTS_ABOVE : ℕ := 2

/-- Constant `INTERSECTS_CRITICAL`. -/
def INTERSECTS_CRITICAL : ℕ := 3

/-- Constant `VALIDATION_SIDE_A_TANGENT`. -/
def VALIDATION_SIDE_A_TANGENT : ℕ := 0

/-- Constant `VALIDATION_SIDE_B_TANGENT`. -/
def VALIDATION_SIDE_B_TANGENT : ℕ := 1

/-- Constant `VALIDATION_SIDES_FLUSH`. -/
def VALIDATION_SIDES_FLUSH : ℕ := 2

/-- Error message `ERR_SIDE_B_GAMMA`. -/
def ERR_SIDE_B_GAMMA : String :=
  "The position of side B could not be determined, because gamma(b) could not be computed."

/-- Error message `ERR_VERTEX_C_ON_SIDE_B`. -/
def ERR_VERTEX_C_ON_SIDE_B : String :=
  "The position of the vertex C on side B could not be determined, because the considered lines do not intersect."

/-- Message of the `CV_Assert` in `lineEquationDeterminedByPoints`. -/
def CV_ASSERT_POINTS_MSG : String :=
  "CV_Assert failed: areEqualPoints(p, q) == false"

/-- Model of `std::numeric_limits<double>::max()`. -/
def doubleMax : ℝ := 2 ^ (1024 : ℕ) - 2 ^ (971 : ℕ)

/-- `maximum(n1, n2, n3) = std::max(std::max(n1, n2), n3)`. -/
def maximum (n1 n2 n3 : ℝ) : ℝ := max (max n1 n2) n3

/-- `almostEqual`: `|n1 - n2| <= EPSILON * max(1.0, |n1|, |n2|)`. -/
def almostEqual (n1 n2 : ℝ) : Prop :=
  |n1 - n2| ≤ EPSILON * maximum 1 |n1| |n2|

/-- `greaterOrEqual(n1, n2) = (n1 > n2) || almostEqual(n1, n2)`. -/
def greaterOrEqual (n1 n2 : ℝ) : Prop :=
  n1 > n2 ∨ almostEqual n1 n2

/-- `lessOrEqual(n1, n2) = (n1 < n2) || almostEqual(n1, n2)`. -/
def lessOrEqual (n1 n2 : ℝ) : Prop :=
  n1 < n2 ∨ almostEqual n1 n2

/-- `sign`: -1 for negative, +1 for positive, 0 otherwise. -/
def sign (number : ℝ) : ℤ :=
  if number > 0 then 1 else if number < 0 then -1 else 0

/-- `areEqualPoints`: coordinatewise `almostEqual`. -/
def areEqualPoints (point1 point2 : Point2f) : Prop :=
  almostEqual point1.x point2.x ∧ almostEqual point1.y point2.y

/-- `middlePoint` of the segment between `a` and `b`. -/
def middlePoint (a b : Point2f) : Point2f :=
  ⟨(a.x + b.x) / 2, (a.y + b.y) / 2⟩

/-- `distanceBtwPoints`: Euclidean distance. -/
def distanceBtwPoints (a b : Point2f) : ℝ :=
  Real.sqrt ((a.x - b.x) * (a.x - b.x) + (a.y - b.y) * (a.y - b.y))

/-- `distanceFromPointToLine(a, B, C)`: distance formula with the
denominator-zero guard returning 0. -/
def distanceFromPointToLine (a linePointB linePointC : Point2f) : ℝ :=
  let term1 := linePointC.x - linePointB.x
  let term2 := linePointB.y - a.y
  let term3 := linePointB.x - a.x
  let term4 := linePointC.y - linePointB.y
  let nominator := |term1 * term2 - term3 * term4|
  let denominator := Real.sqrt (term1 * term1 + term4 * term4)
  if denominator ≠ 0 then nominator / denominator else 0

/-- `areaOfTriangle`: half the absolute value of the expanded determinant. -/
def areaOfTriangle (a b c : Point2f) : ℝ :=
  |(a.x * b.y + a.y * c.x + b.x * c.y) - (b.y * c.x + a.x * c.y + a.y * b.x)| / 2

/-- `isPointOnLineSegment`: `|ps| + |pe| ≈ |se|`. -/
def isPointOnLineSegment (point lineSegmentStart lineSegmentEnd : Point2f) : Prop :=
  almostEqual
    (distanceBtwPoints point lineSegmentStart + distanceBtwPoints point lineSegmentEnd)
    (distanceBtwPoints lineSegmentStart lineSegmentEnd)

/-- Model of C `atan2(y, x)` via `Real.arctan` (range `(-π, π]`). -/
def atan2 (y x : ℝ) : ℝ :=
  if 0 < x then Real.arctan (y / x)
  else if x < 0 then
    (if 0 ≤ y then Real.arctan (y / x) + Real.pi else Real.arctan (y / x) - Real.pi)
  else
    (if 0 < y then Real.pi / 2 else if y < 0 then -(Real.pi / 2) else 0)

/-- `angleOfLineWrtOxAxis(a, b)`: `atan2` in degrees, normalised to `[0, 360)`. -/
def angleOfLineWrtOxAxis (a b : Point2f) : ℝ :=
  let angle := atan2 (b.y - a.y) (b.x - a.x) * 180 / Real.pi
  if angle < 0 then angle + 360 else angle

/-- `oppositeAngle`: `angle - 180` if `angle > 180`, else `angle + 180`. -/
def oppositeAngle (angle : ℝ) : ℝ :=
  if angle > 180 then angle - 180 else angle + 180

/-- C cast of a `double` to `int`: truncation toward zero. -/
def castToInt (r : ℝ) : ℤ :=
  if 0 ≤ r then ⌊r⌋ else ⌈r⌉

/-- `isAngleBetween`: branch on `((int)(angle2 - angle3)) % 180 > 0`
(with C truncated division semantics for both the cast and `%`). -/
def isAngleBetween (angle1 angle2 angle3 : ℝ) : Prop :=
  if (castToInt (angle2 - angle3)).tmod 180 > 0 then
    angle3 < angle1 ∧ angle1 < angle2
  else
    angle2 < angle1 ∧ angle1 < angle3

/-- `isAngleBetweenNonReflex`. -/
def isAngleBetweenNonReflex (angle1 angle2 angle3 : ℝ) : Prop :=
  if |angle2 - angle3| > 180 then
    if angle2 > angle3 then
      (angle2 < angle1 ∧ lessOrEqual angle1 360) ∨ (lessOrEqual 0 angle1 ∧ angle1 < angle3)
    else
      (angle3 < angle1 ∧ lessOrEqual angle1 360) ∨ (lessOrEqual 0 angle1 ∧ angle1 < angle2)
  else
    isAngleBetween angle1 angle2 angle3

/-- `isOppositeAngleBetweenNonReflex`. -/
def isOppositeAngleBetweenNonReflex (angle1 angle2 angle3 : ℝ) : Prop :=
  isAngleBetweenNonReflex (oppositeAngle angle1) angle2 angle3

/-- `isFlushAngleBtwPredAndSucc`, with the in-place mutation of the flush
angle modelled by returning the (possibly replaced) angle in `some`. -/
def isFlushAngleBtwPredAndSucc (angleFlushEdge anglePred angleSucc : ℝ) : Option ℝ :=
  if isAngleBetweenNonReflex angleFlushEdge anglePred angleSucc then
    some angleFlushEdge
  else if isOppositeAngleBetweenNonReflex angleFlushEdge anglePred angleSucc then
    some (oppositeAngle angleFlushEdge)
  else
    none

/-- `isGammaAngleEqualTo` (the by-reference angle is only read). -/
def isGammaAngleEqualTo (gammaAngle angle : ℝ) : Prop :=
  almostEqual gammaAngle angle

/-- `isGammaAngleBtw` (the by-reference angle is only read). -/
def isGammaAngleBtw (gammaAngle angle1 angle2 : ℝ) : Prop :=
  isAngleBetweenNonReflex gammaAngle angle1 angle2

/-- `successor`: `(index + 1) % nrOfPoints`. -/
def successor (index nrOfPoints : ℕ) : ℕ :=
  (index + 1) % nrOfPoints

/-- `predecessor`: `nrOfPoints - 1` when `index == 0`, else `index - 1`. -/
def predecessor (index nrOfPoints : ℕ) : ℕ :=
  if index = 0 then nrOfPoints - 1 else index - 1

/-- `advance`: assignment `index = successor(index, nrOfPoints)`. -/
def advance (index nrOfPoints : ℕ) : ℕ :=
  successor index nrOfPoints

/-- Parameters `(a, b, c)` of a line equation `a*x + b*y + c = 0`. -/
structure LineEqParams where
  a : ℝ
  b : ℝ
  c : ℝ

/-- `lineEquationDeterminedByPoints`, with its `CV_Assert` (points must not
be `areEqualPoints`-equal) modelled as an `Except` error. -/
def lineEquationDeterminedByPoints (p q : Point2f) : Except String LineEqParams :=
  if areEqualPoints p q then Except.error CV_ASSERT_POINTS_MSG
  else
    Except.ok ⟨q.y - p.y, p.x - q.x, (-p.y) * (p.x - q.x) - p.x * (q.y - p.y)⟩

/-- `lineEquationParameters`: wrapper returning the three parameters. -/
def lineEquationParameters (p q : Point2f) : Except String LineEqParams :=
  lineEquationDeterminedByPoints p q

/-- `lineIntersection` (coefficient form `A1 x + B1 y = C1`): `none` when
`almostEqual(det, 0)`. -/
def lineIntersection (a1 b1 c1 a2 b2 c2 : ℝ) : Option Point2f :=
  let det := a1 * b2 - a2 * b1
  if ¬ almostEqual det 0 then
    some ⟨(c1 * b2 - c2 * b1) / det, (c2 * a1 - c1 * a2) / det⟩
  else
    none

/-- `lineIntersection` (point-pair form): derives the coefficients directly
(no assertion in this overload). -/
def lineIntersectionPts (a1 b1 a2 b2 : Point2f) : Option Point2f :=
  let bigA1 := b1.y - a1.y
  let bigB1 := a1.x - b1.x
  let bigC1 := a1.x * bigA1 + a1.y * bigB1
  let bigA2 := b2.y - a2.y
  let bigB2 := a2.x - b2.x
  let bigC2 := a2.x * bigA2 + a2.y * bigB2
  let det := bigA1 * bigB2 - bigA2 * bigB1
  if ¬ almostEqual det 0 then
    some ⟨(bigC1 * bigB2 - bigC2 * bigB1) / det, (bigC2 * bigA1 - bigC1 * bigA2) / det⟩
  else
    none

/-- `areIdenticalLines` (six-parameter form). -/
def areIdenticalLines (a1 b1 c1 a2 b2 c2 : ℝ) : Prop :=
  almostEqual (a1 * b2) (a2 * b1) ∧ almostEqual (b1 * c2) (b2 * c1) ∧
    almostEqual (a1 * c2) (a2 * c1)

/-- `areIdenticalLines` (parameter-vector form with `sideCExtraParam`). -/
def areIdenticalLinesP (s1 s2 : LineEqParams) (sideCExtraParam : ℝ) : Prop :=
  areIdenticalLines s1.a s1.b (-s1.c) s2.a s2.b (-s2.c - sideCExtraParam) ∨
    areIdenticalLines s1.a s1.b (-s1.c) s2.a s2.b (-s2.c + sideCExtraParam)

/-- `areIntersectingLines`: both displaced intersections must exist. -/
def areIntersectingLines (s1 s2 : LineEqParams) (sideCExtraParam : ℝ) :
    Option (Point2f × Point2f) :=
  match lineIntersection s1.a s1.b (-s1.c) s2.a s2.b (-s2.c - sideCExtraParam),
        lineIntersection s1.a s1.b (-s1.c) s2.a s2.b (-s2.c + sideCExtraParam) with
  | some i1, some i2 => some (i1, i2)
  | _, _ => none

/-- `areOnTheSameSideOfLine` (the line-equation assertion may trap). -/
def areOnTheSameSideOfLine (p1 p2 a b : Point2f) : Except String Prop :=
  (lineEquationDeterminedByPoints a b).map fun t =>
    sign (t.a * p1.x + t.b * p1.y + t.c) = sign (t.a * p2.x + t.b * p2.y + t.c)

/-- `height` of the polygon point with the given index (with respect to the
line through `polygon[c]` and `polygon[c-1]`). -/
def height (polygonPointIndex : ℕ) (polygon : Poly) (nrOfPoints c : ℕ) : ℝ :=
  distanceFromPointToLine (pget polygon polygonPointIndex) (pget polygon c)
    (pget polygon (predecessor c nrOfPoints))

/-- `height` of an arbitrary point (the point-argument overload). -/
def heightPoint (polygonPoint : Point2f) (polygon : Poly) (nrOfPoints c : ℕ) : ℝ :=
  distanceFromPointToLine polygonPoint (pget polygon c)
    (pget polygon (predecessor c nrOfPoints))

/-- `findGammaIntersectionPoints`. -/
def findGammaIntersectionPoints (polygon : Poly) (nrOfPoints c polygonPointIndex : ℕ)
    (side1StartVertex side1EndVertex side2StartVertex side2EndVertex : Point2f) :
    Except String (Option (Point2f × Point2f)) := do
  let side1Params ← lineEquationParameters side1StartVertex side1EndVertex
  let side2Params ← lineEquationParameters side2StartVertex side2EndVertex
  let polygonPointHeight := height polygonPointIndex polygon nrOfPoints c
  let distFormulaDenom := Real.sqrt (side2Params.a * side2Params.a + side2Params.b * side2Params.b)
  let sideCExtraParam := 2 * polygonPointHeight * distFormulaDenom
  match areIntersectingLines side1Params side2Params sideCExtraParam with
  | none => pure none
  | some ips =>
      if areIdenticalLinesP side1Params side2Params sideCExtraParam then
        pure (some (side1StartVertex, side1EndVertex))
      else
        pure (some ips)

/-- `gamma`: `Except.ok none` models the `false` return, `Except.ok (some _)`
the `true` return together with the out-parameter `gammaPoint`. -/
def gamma (polygonPointIndex : ℕ) (polygon : Poly) (nrOfPoints a c : ℕ) :
    Except String (Option Point2f) := do
  match ← findGammaIntersectionPoints polygon nrOfPoints c polygonPointIndex
      (pget polygon a) (pget polygon (predecessor a nrOfPoints))
      (pget polygon c) (pget polygon (predecessor c nrOfPoints)) with
  | none => pure none
  | some (ip1, ip2) => do
      let sameSide ← areOnTheSameSideOfLine ip1 (pget polygon (successor c nrOfPoints))
        (pget polygon c) (pget polygon (predecessor c nrOfPoints))
      pure (some (if sameSide then ip1 else ip2))

/-- `findVertexCOnSideB`: raises `ERR_VERTEX_C_ON_SIDE_B` when the gamma
intersection points do not exist. -/
def findVertexCOnSideB (polygon : Poly) (nrOfPoints a c : ℕ)
    (sideBStartVertex sideBEndVertex sideCStartVertex sideCEndVertex : Point2f) :
    Except String Point2f := do
  match ← findGammaIntersectionPoints polygon nrOfPoints c (predecessor a nrOfPoints)
      sideBStartVertex sideBEndVertex sideCStartVertex sideCEndVertex with
  | none => Except.error ERR_VERTEX_C_ON_SIDE_B
  | some (ip1, ip2) => do
      let sameSide ← areOnTheSameSideOfLine ip1 (pget polygon (successor c nrOfPoints))
        (pget polygon c) (pget polygon (predecessor c nrOfPoints))
      pure (if sameSide then ip1 else ip2)

/-- `intersectsAboveOrBelow`. -/
def intersectsAboveOrBelow (succPredIndex pointIndex : ℕ) (polygon : Poly)
    (nrOfPoints c : ℕ) : ℕ :=
  if height succPredIndex polygon nrOfPoints c > height pointIndex polygon nrOfPoints c then
    INTERSECTS_ABOVE
  else
    INTERSECTS_BELOW

/-- `intersects`: classify the line through `polygon[polygonPointIndex]` with
the given angle as BELOW / ABOVE / CRITICAL. -/
def intersects (angleGammaAndPoint : ℝ) (polygonPointIndex : ℕ) (polygon : Poly)
    (nrOfPoints c : ℕ) : ℕ :=
  let anglePointPredecessor :=
    angleOfLineWrtOxAxis (pget polygon (predecessor polygonPointIndex nrOfPoints))
      (pget polygon polygonPointIndex)
  let anglePointSuccessor :=
    angleOfLineWrtOxAxis (pget polygon (successor polygonPointIndex nrOfPoints))
      (pget polygon polygonPointIndex)
  let angleFlushEdge :=
    angleOfLineWrtOxAxis (pget polygon (predecessor c nrOfPoints)) (pget polygon c)
  match isFlushAngleBtwPredAndSucc angleFlushEdge anglePointPredecessor anglePointSuccessor with
  | some flushAngle =>
      if isGammaAngleBtw angleGammaAndPoint anglePointPredecessor flushAngle ∨
          almostEqual angleGammaAndPoint anglePointPredecessor then
        intersectsAboveOrBelow (predecessor polygonPointIndex nrOfPoints) polygonPointIndex
          polygon nrOfPoints c
      else if isGammaAngleBtw angleGammaAndPoint anglePointSuccessor flushAngle ∨
          almostEqual angleGammaAndPoint anglePointSuccessor then
        intersectsAboveOrBelow (successor polygonPointIndex nrOfPoints) polygonPointIndex
          polygon nrOfPoints c
      else
        INTERSECTS_CRITICAL
  | none =>
      if isGammaAngleBtw angleGammaAndPoint anglePointPredecessor anglePointSuccessor ∨
          (isGammaAngleEqualTo angleGammaAndPoint anglePointPredecessor ∧
            ¬ isGammaAngleEqualTo angleGammaAndPoint angleFlushEdge) ∨
          (isGammaAngleEqualTo angleGammaAndPoint anglePointSuccessor ∧
            ¬ isGammaAngleEqualTo angleGammaAndPoint angleFlushEdge) then
        INTERSECTS_BELOW
      else
        INTERSECTS_CRITICAL

/-- `intersectsBelow`: the line through `polygon[idx]` and the gamma point. -/
def intersectsBelow (gammaPoint : Point2f) (polygonPointIndex : ℕ) (polygon : Poly)
    (nrOfPoints c : ℕ) : Prop :=
  intersects (angleOfLineWrtOxAxis (pget polygon polygonPointIndex) gammaPoint)
    polygonPointIndex polygon nrOfPoints c = INTERSECTS_BELOW

/-- `intersectsAbove` (note the reversed point order in the angle). -/
def intersectsAbove (gammaPoint : Point2f) (polygonPointIndex : ℕ) (polygon : Poly)
    (nrOfPoints c : ℕ) : Prop :=
  intersects (angleOfLineWrtOxAxis gammaPoint (pget polygon polygonPointIndex))
    polygonPointIndex polygon nrOfPoints c = INTERSECTS_ABOVE

/-- `advanceBToRightChain` loop, with fuel (`none` = fuel exhausted). -/
def advanceBToRightChain (fuel : ℕ) (polygon : Poly) (nrOfPoints b c : ℕ) : Option ℕ :=
  match fuel with
  | 0 => none
  | fuel + 1 =>
      if greaterOrEqual (height (successor b nrOfPoints) polygon nrOfPoints c)
          (height b polygon nrOfPoints c) then
        advanceBToRightChain fuel polygon nrOfPoints (advance b nrOfPoints) c
      else
        some b

/-- Body of one iteration of the `moveAIfLowAndBIfHigh` loop: advance `b`
when `gamma(a)` exists and intersects below at `b`, else advance `a`. -/
def moveABStep (polygon : Poly) (nrOfPoints a b c : ℕ) : Except String (ℕ × ℕ) :=
  match gamma a polygon nrOfPoints a c with
  | Except.error e => Except.error e
  | Except.ok none => Except.ok (advance a nrOfPoints, b)
  | Except.ok (some gammaOfA) =>
      if intersectsBelow gammaOfA b polygon nrOfPoints c then
        Except.ok (a, advance b nrOfPoints)
      else
        Except.ok (advance a nrOfPoints, b)

/-- `moveAIfLowAndBIfHigh` loop, with fuel. -/
def moveAIfLowAndBIfHigh (fuel : ℕ) (polygon : Poly) (nrOfPoints a b c : ℕ) :
    Option (Except String (ℕ × ℕ)) :=
  match fuel with
  | 0 => none
  | fuel + 1 =>
      if height b polygon nrOfPoints c > height a polygon nrOfPoints c then
        match moveABStep polygon nrOfPoints a b c with
        | Except.error e => some (Except.error e)
        | Except.ok (a1, b1) => moveAIfLowAndBIfHigh fuel polygon nrOfPoints a1 b1 c
      else
        some (Except.ok (a, b))

/-- `searchForBTangency` loop, with fuel. -/
def searchForBTangency (fuel : ℕ) (polygon : Poly) (nrOfPoints a b c : ℕ) :
    Option (Except String ℕ) :=
  match fuel with
  | 0 => none
  | fuel + 1 =>
      match gamma b polygon nrOfPoints a c with
      | Except.error e => some (Except.error e)
      | Except.ok none => some (Except.ok b)
      | Except.ok (some gammaOfB) =>
          if intersectsBelow gammaOfB b polygon nrOfPoints c ∧
              greaterOrEqual (height b polygon nrOfPoints c)
                (height (predecessor a nrOfPoints) polygon nrOfPoints c) then
            searchForBTangency fuel polygon nrOfPoints a (advance b nrOfPoints) c
          else
            some (Except.ok b)

/-- `isNotBTangency` (gamma may trap through its assertion). -/
def isNotBTangency (polygon : Poly) (nrOfPoints a b c : ℕ) : Except String Prop :=
  match gamma b polygon nrOfPoints a c with
  | Except.error e => Except.error e
  | Except.ok none =>
      Except.ok (height b polygon nrOfPoints c <
        height (predecessor a nrOfPoints) polygon nrOfPoints c)
  | Except.ok (some gammaOfB) =>
      Except.ok (intersectsAbove gammaOfB b polygon nrOfPoints c ∨
        height b polygon nrOfPoints c <
          height (predecessor a nrOfPoints) polygon nrOfPoints c)

/-- `updateSidesCA`: side C is `(P[c-1], P[c])`, side A is `(P[a-1], P[a])`. -/
def updateSidesCA (polygon : Poly) (nrOfPoints a c : ℕ) :
    (Point2f × Point2f) × (Point2f × Point2f) :=
  ((pget polygon (predecessor a nrOfPoints), pget polygon a),
   (pget polygon (predecessor c nrOfPoints), pget polygon c))

/-- `middlePointOfSideB`. -/
def middlePointOfSideB (sideAStartVertex sideAEndVertex sideBStartVertex sideBEndVertex
    sideCStartVertex sideCEndVertex : Point2f) : Option Point2f :=
  match lineIntersectionPts sideBStartVertex sideBEndVertex sideCStartVertex sideCEndVertex,
        lineIntersectionPts sideBStartVertex sideBEndVertex sideAStartVertex sideAEndVertex with
  | some vertexA, some vertexC => some (middlePoint vertexA vertexC)
  | _, _ => none

/-- `updateSidesBA`: returns the (possibly re-pinned) side A, side B and the
validation flag. -/
def updateSidesBA (polygon : Poly) (nrOfPoints a b c : ℕ)
    (sideAStartVertex sideAEndVertex sideCStartVertex sideCEndVertex : Point2f) :
    Except String ((Point2f × Point2f) × (Point2f × Point2f) × ℕ) :=
  let sideBStartVertex := pget polygon (predecessor b nrOfPoints)
  let sideBEndVertex := pget polygon b
  match middlePointOfSideB sideAStartVertex sideAEndVertex sideBStartVertex sideBEndVertex
      sideCStartVertex sideCEndVertex with
  | some sideBMiddlePoint =>
      if heightPoint sideBMiddlePoint polygon nrOfPoints c <
          height (predecessor a nrOfPoints) polygon nrOfPoints c then do
        let vtx ← findVertexCOnSideB polygon nrOfPoints a c sideBStartVertex sideBEndVertex
          sideCStartVertex sideCEndVertex
        pure ((pget polygon (predecessor a nrOfPoints), vtx),
          (sideBStartVertex, sideBEndVertex), VALIDATION_SIDE_A_TANGENT)
      else
        pure ((sideAStartVertex, sideAEndVertex), (sideBStartVertex, sideBEndVertex),
          VALIDATION_SIDES_FLUSH)
  | none =>
      pure ((sideAStartVertex, sideAEndVertex), (sideBStartVertex, sideBEndVertex),
        VALIDATION_SIDES_FLUSH)

/-- `updateSideB`: raises `ERR_SIDE_B_GAMMA` when `gamma(b)` returns false. -/
def updateSideB (polygon : Poly) (nrOfPoints a b c : ℕ) :
    Except String ((Point2f × Point2f) × ℕ) :=
  match gamma b polygon nrOfPoints a c with
  | Except.error e => Except.error e
  | Except.ok none => Except.error ERR_SIDE_B_GAMMA
  | Except.ok (some gammaOfB) =>
      Except.ok ((gammaOfB, pget polygon b), VALIDATION_SIDE_B_TANGENT)

/-- `isValidMinimalTriangle`: the midpoint-touch validation. -/
def isValidMinimalTriangle (vertexA vertexB vertexC : Point2f) (polygon : Poly)
    (nrOfPoints a b validationFlag : ℕ)
    (sideAStartVertex sideAEndVertex sideBStartVertex sideBEndVertex
      sideCStartVertex sideCEndVertex : Point2f) : Prop :=
  let midpointSideA := middlePoint vertexB vertexC
  let midpointSideB := middlePoint vertexA vertexC
  let midpointSideC := middlePoint vertexA vertexB
  (if validationFlag = VALIDATION_SIDE_A_TANGENT then
    areEqualPoints midpointSideA (pget polygon (predecessor a nrOfPoints))
  else
    isPointOnLineSegment midpointSideA sideAStartVertex sideAEndVertex) ∧
  (if validationFlag = VALIDATION_SIDE_B_TANGENT then
    areEqualPoints midpointSideB (pget polygon b)
  else
    isPointOnLineSegment midpointSideB sideBStartVertex sideBEndVertex) ∧
  (validationFlag = VALIDATION_SIDES_FLUSH ∨
    isPointOnLineSegment midpointSideC sideCStartVertex sideCEndVertex)

/-- `isLocalMinimalTriangle`: `some (vertexA, vertexB, vertexC)` when all
three side intersections exist and the triangle validates; `none` models the
`false` return. -/
def isLocalMinimalTriangle (polygon : Poly) (nrOfPoints a b validationFlag : ℕ)
    (sideAStartVertex sideAEndVertex sideBStartVertex sideBEndVertex
      sideCStartVertex sideCEndVertex : Point2f) :
    Option (Point2f × Point2f × Point2f) :=
  match lineIntersectionPts sideAStartVertex sideAEndVertex sideBStartVertex sideBEndVertex,
        lineIntersectionPts sideAStartVertex sideAEndVertex sideCStartVertex sideCEndVertex,
        lineIntersectionPts sideBStartVertex sideBEndVertex sideCStartVertex sideCEndVertex with
  | some vertexC, some vertexB, some vertexA =>
      if isValidMinimalTriangle vertexA vertexB vertexC polygon nrOfPoints a b validationFlag
          sideAStartVertex sideAEndVertex sideBStartVertex sideBEndVertex
          sideCStartVertex sideCEndVertex then
        some (vertexA, vertexB, vertexC)
      else
        none
  | _, _, _ => none

/-- `updateMinimumAreaEnclosingTriangle`: keep the new triangle only when its
area is strictly smaller. -/
def updateMinimumAreaEnclosingTriangle (best : List Point2f × ℝ)
    (vertexA vertexB vertexC : Point2f) : List Point2f × ℝ :=
  let triangleArea := areaOfTriangle vertexA vertexB vertexC
  if triangleArea < best.2 then ([vertexA, vertexB, vertexC], triangleArea) else best

/-- The candidate construction and update at the end of one sweep iteration
(lines 440-445 of the source). -/
def applyCandidate (polygon : Poly) (nrOfPoints a b validationFlag : ℕ)
    (sideAStartVertex sideAEndVertex sideBStartVertex sideBEndVertex
      sideCStartVertex sideCEndVertex : Point2f) (best : List Point2f × ℝ) :
    List Point2f × ℝ :=
  match isLocalMinimalTriangle polygon nrOfPoints a b validationFlag sideAStartVertex
      sideAEndVertex sideBStartVertex sideBEndVertex sideCStartVertex sideCEndVertex with
  | none => best
  | some (vertexA, vertexB, vertexC) =>
      updateMinimumAreaEnclosingTriangle best vertexA vertexB vertexC

/-- One iteration of the main `for (c = 0; c < nrOfPoints; c++)` loop:
returns the new `a`, `b` and best result. -/
def sweepIteration (fuel : ℕ) (polygon : Poly) (nrOfPoints a b c : ℕ)
    (best : List Point2f × ℝ) : Option (Except String (ℕ × ℕ × (List Point2f × ℝ))) :=
  match advanceBToRightChain fuel polygon nrOfPoints b c with
  | none => none
  | some b1 =>
      match moveAIfLowAndBIfHigh fuel polygon nrOfPoints a b1 c with
      | none => none
      | some (Except.error e) => some (Except.error e)
      | some (Except.ok (a1, b2)) =>
          match searchForBTangency fuel polygon nrOfPoints a1 b2 c with
          | none => none
          | some (Except.error e) => some (Except.error e)
          | some (Except.ok b3) =>
              let sides := updateSidesCA polygon nrOfPoints a1 c
              match isNotBTangency polygon nrOfPoints a1 b3 c with
              | Except.error e => some (Except.error e)
              | Except.ok notBTangency =>
                  if notBTangency then
                    match updateSidesBA polygon nrOfPoints a1 b3 c sides.1.1 sides.1.2
                        sides.2.1 sides.2.2 with
                    | Except.error e => some (Except.error e)
                    | Except.ok (sideA, sideB, validationFlag) =>
                        some (Except.ok (a1, b3,
                          applyCandidate polygon nrOfPoints a1 b3 validationFlag sideA.1 sideA.2
                            sideB.1 sideB.2 sides.2.1 sides.2.2 best))
                  else
                    match updateSideB polygon nrOfPoints a1 b3 c with
                    | Except.error e => some (Except.error e)
                    | Except.ok (sideB, validationFlag) =>
                        some (Except.ok (a1, b3,
                          applyCandidate polygon nrOfPoints a1 b3 validationFlag sides.1.1
                            sides.1.2 sideB.1 sideB.2 sides.2.1 sides.2.2 best))

/-- The whole `for` loop of `findMinimumAreaEnclosingTriangle`: `k` counts
the remaining iterations (`k = nrOfPoints - c` at entry). -/
def sweepLoop (fuel : ℕ) (polygon : Poly) (nrOfPoints : ℕ) :
    ℕ → ℕ → ℕ → ℕ → (List Point2f × ℝ) → Option (Except String (List Point2f × ℝ))
  | 0, _, _, _, best => some (Except.ok best)
  | k + 1, a, b, c, best =>
      match sweepIteration fuel polygon nrOfPoints a b c best with
      | none => none
      | some (Except.error e) => some (Except.error e)
      | some (Except.ok (a1, b1, best1)) =>
          sweepLoop fuel polygon nrOfPoints k a1 b1 (c + 1) best1

/-- `findMinimumAreaEnclosingTriangle` (sweep entry: `a = 1`, `b = 2`,
`c = 0`). -/
def findMinimumAreaEnclosingTriangle (fuel : ℕ) (polygon : Poly)
    (best : List Point2f × ℝ) : Option (Except String (List Point2f × ℝ)) :=
  sweepLoop fuel polygon polygon.length polygon.length 1 2 0 best

/-- `initialise`: clear the triangle, set the area to `DBL_MAX`. -/
def initialise : List Point2f × ℝ := ([], doubleMax)

/-- `returnMinimumAreaEnclosingTriangle` (the `n <= 3` bypass): push
`polygon[i % n]` for `i = 0, 1, 2` and take the area of the pushed points. -/
def returnMinimumAreaEnclosingTriangle (polygon : Poly) (st : List Point2f × ℝ) :
    List Point2f × ℝ :=
  let nrOfPoints := polygon.length
  let triangle := st.1 ++ [pget polygon (0 % nrOfPoints), pget polygon (1 % nrOfPoints),
    pget polygon (2 % nrOfPoints)]
  (triangle, areaOfTriangle (pget triangle 0) (pget triangle 1) (pget triangle 2))

/-- `findMinEnclosingTriangle` (polygon overload): initialise, then dispatch
on `polygon.size() > 3`. -/
def findMinEnclosingTriangle (fuel : ℕ) (polygon : Poly) :
    Option (Except String (List Point2f × ℝ)) :=
  let st := initialise
  if polygon.length > 3 then
    findMinimumAreaEnclosingTriangle fuel polygon st
  else
    some (Except.ok (returnMinimumAreaEnclosingTriangle polygon st))

/-- Invariant of the best result: either no triangle is stored, or exactly
three vertices are stored and the stored area is their triangle area. -/
def BestInv (best : List Point2f × ℝ) : Prop :=
  best.1 = [] ∨ ∃ p q r, best.1 = [p, q, r] ∧ best.2 = areaOfTriangle p q r

/-- Modelled from the spec (`isAngleBetween`, section 4.2): strict membership
of `angle1` in the shorter of the two circular arcs between `angle2` and
`angle3` (for angle values in `[0, 360)`). -/
def specShorterArcBetween (angle1 angle2 angle3 : ℝ) : Prop :=
  if |angle2 - angle3| < 180 then
    min angle2 angle3 < angle1 ∧ angle1 < max angle2 angle3
  else
    max angle2 angle3 < angle1 ∨ angle1 < min angle2 angle3

/-- Concrete convex CCW polygon used to analyse sweep step S2. -/
def cexPoly : Poly := [⟨0, 0⟩, ⟨2, 0⟩, ⟨4, 2⟩, ⟨6, 5⟩, ⟨6, 8⟩, ⟨4, 10⟩]

/-- Truncated remainder of a small nonnegative integer. -/
theorem tmod180_of_nonneg {k : ℤ} (h1 : 0 ≤ k) (h2 : k < 180) : k.tmod 180 = k := by
  rw [Int.tmod_eq_emod h1 (by norm_num)]
  omega

/-- Truncated remainder of a small nonpositive integer. -/
theorem tmod180_of_nonpos {k : ℤ} (h1 : -180 < k) (h2 : k ≤ 0) : k.tmod 180 = k := by
  have hd : k.tdiv 180 = 0 := by
    have := Int.neg_tdiv k 180
    have h0 : (-k).tdiv 180 = 0 := Int.tdiv_eq_zero_of_lt (by omega) (by omega)
    omega
  have := Int.tmod_def k 180
  rw [hd] at this
  simpa using this

/-- The `atan2` model always lands in `(-π, π]`. -/
theorem atan2_bounds (y x : ℝ) : -Real.pi < atan2 y x ∧ atan2 y x ≤ Real.pi := by
  have hpi : 0 < Real.pi := Real.pi_pos
  have hlt : ∀ z : ℝ, Real.arctan z < Real.pi / 2 := Real.arctan_lt_pi_div_two
  have hgt : ∀ z : ℝ, -(Real.pi / 2) < Real.arctan z := Real.neg_pi_div_two_lt_arctan
  unfold atan2
  split_ifs with hx hx2 hy hy2 hy3
  · exact ⟨by linarith [hgt (y / x)], by linarith [hlt (y / x)]⟩
  · have hdiv : y / x ≤ 0 := div_nonpos_iff.mpr (Or.inl ⟨hy, le_of_lt hx2⟩)
    have harc : Real.arctan (y / x) ≤ 0 := by
      have := Real.arctan_strictMono.monotone hdiv
      simpa using this
    exact ⟨by linarith [hgt (y / x)], by linarith⟩
  · have hdiv : 0 < y / x := div_pos_of_neg_of_neg (by linarith) hx2
    have harc : 0 < Real.arctan (y / x) := by
      have := Real.arctan_strictMono hdiv
      simpa using this
    exact ⟨by linarith, by linarith [hlt (y / x)]⟩
  · exact ⟨by linarith, by linarith⟩
  · exact ⟨by linarith, by linarith⟩
  · exact ⟨by linarith, by linarith⟩

/-- Values that are far apart (relative to their size) are never
`almostEqual`. -/
theorem not_almostEqual_of_gap {x y : ℝ} (hx : |x| ≤ 400) (hy : |y| ≤ 400)
    (h : 1 / 100 ≤ |x - y|) : ¬ almostEqual x y := by
  unfold almostEqual maximum EPSILON
  intro hcon
  have hm : max (max 1 |x|) |y| ≤ 400 := by
    have h1 : (1 : ℝ) ≤ 400 := by norm_num
    exact max_le (max_le h1 hx) hy
  nlinarith

/-- A value is always `almostEqual` to itself. -/
theorem almostEqual_self (x : ℝ) : almostEqual x x := by
  unfold almostEqual maximum EPSILON
  have hm : (1 : ℝ) ≤ max (max 1 |x|) |x| := le_trans (le_max_left 1 |x|) (le_max_left _ _)
  simp only [sub_self, abs_zero]
  nlinarith

/-- C10: for every polygon size `n ≥ 1` and index `i < n`, `successor` and
`predecessor` stay in `[0, n)` and are mutually inverse. -/
theorem claim_C10 (n i : ℕ) (h1 : 1 ≤ n) (h2 : i < n) :
    successor i n < n ∧ predecessor i n < n ∧
    predecessor (successor i n) n = i ∧ successor (predecessor i n) n = i := by
  unfold successor predecessor
  refine ⟨Nat.mod_lt _ (by omega), ?_, ?_, ?_⟩
  · split <;> omega
  · rcases eq_or_ne (i + 1) n with h | h
    · rw [show (i + 1) % n = 0 by rw [h]; exact Nat.mod_self n]
      rw [if_pos rfl]
      omega
    · rw [Nat.mod_eq_of_lt (by omega)]
      rw [if_neg (by omega)]
      omega
  · rcases eq_or_ne i 0 with h | h
    · rw [if_pos h]
      rw [show n - 1 + 1 = n by omega, Nat.mod_self]
      omega
    · rw [if_neg h]
      rw [show i - 1 + 1 = i by omega, Nat.mod_eq_of_lt h2]

/-- Witness for C10 at `n = 5`, `i = 3`. -/
theorem claim_C10_witness :
    successor 3 5 < 5 ∧ predecessor 3 5 < 5 ∧
    predecessor (successor 3 5) 5 = 3 ∧ successor (predecessor 3 5) 5 = 3 :=
  claim_C10 5 3 (by decide) (by decide)

/-- C7: `oppositeAngle` returns `angle - 180` above 180 and `angle + 180`
otherwise, so `oppositeAngle 180 = 360` (not 0), even though
`angleOfLineWrtOxAxis` only produces values in `[0, 360)`. -/
theorem claim_C7 :
    (∀ angle : ℝ, angle > 180 → oppositeAngle angle = angle - 180) ∧
    (∀ angle : ℝ, ¬ angle > 180 → oppositeAngle angle = angle + 180) ∧
    oppositeAngle 180 = 360 ∧ oppositeAngle 180 ≠ 0 ∧
    (∀ a b : Point2f, 0 ≤ angleOfLineWrtOxAxis a b ∧ angleOfLineWrtOxAxis a b < 360) := by
  have hopp : ∀ angle : ℝ, ¬ angle > 180 → oppositeAngle angle = angle + 180 := by
    intro angle h
    unfold oppositeAngle
    rw [if_neg h]
  refine ⟨?_, hopp, ?_, ?_, ?_⟩
  · intro angle h
    unfold oppositeAngle
    rw [if_pos h]
  · rw [hopp 180 (by norm_num)]; norm_num
  · rw [hopp 180 (by norm_num)]; norm_num
  · intro a b
    unfold angleOfLineWrtOxAxis
    have hpi : 0 < Real.pi := Real.pi_pos
    obtain ⟨hlo, hhi⟩ := atan2_bounds (b.y - a.y) (b.x - a.x)
    set t := atan2 (b.y - a.y) (b.x - a.x) with ht
    have hdeg_hi : t * 180 / Real.pi ≤ 180 := by
      rw [div_le_iff₀ hpi]
      nlinarith
    have hdeg_lo : -180 < t * 180 / Real.pi := by
      rw [lt_div_iff₀ hpi]
      nlinarith
    by_cases hneg : t * 180 / Real.pi < 0
    · rw [if_pos hneg]
      constructor <;> linarith
    · rw [if_neg hneg]
      push_neg at hneg
      constructor <;> linarith

/-- Witness for C7 applying both `oppositeAngle` branches at 200 and 100. -/
theorem claim_C7_witness : oppositeAngle 200 = 20 ∧ oppositeAngle 100 = 280 := by
  constructor
  · rw [claim_C7.1 200 (by norm_num)]; norm_num
  · rw [claim_C7.2.1 100 (by norm_num)]; norm_num

/-- C9 (amended): `isAngleBetween` decides the arc direction by the sign of
the C-truncated integer `(angle2 - angle3) % 180` (not by a parity): when
that value is positive the tested open interval is `(angle3, angle2)`, else
`(angle2, angle3)`.  This agrees with strict membership in the shorter arc
whenever `1 ≤ |angle2 - angle3| < 180`, but for sub-degree positive
differences the truncation flips the direction and the tested interval is
empty. -/
theorem claim_C9 :
    (∀ angle1 angle2 angle3 : ℝ, 1 ≤ |angle2 - angle3| → |angle2 - angle3| < 180 →
      (isAngleBetween angle1 angle2 angle3 ↔ specShorterArcBetween angle1 angle2 angle3)) ∧
    (∀ angle1 angle2 angle3 : ℝ, 0 < angle2 - angle3 → angle2 - angle3 < 1 →
      ¬ isAngleBetween angle1 angle2 angle3) := by
  constructor
  · intro angle1 angle2 angle3 h1 h2
    unfold isAngleBetween specShorterArcBetween castToInt
    rw [if_pos h2]
    rcases le_or_lt 1 (angle2 - angle3) with hpos | hrest
    · have hge : (0 : ℝ) ≤ angle2 - angle3 := by linarith
      rw [if_pos hge]
      have hfl1 : (1 : ℤ) ≤ ⌊angle2 - angle3⌋ := Int.le_floor.mpr (by exact_mod_cast hpos)
      have hfl2 : ⌊angle2 - angle3⌋ < 180 := by
        apply Int.floor_lt.mpr
        calc angle2 - angle3 ≤ |angle2 - angle3| := le_abs_self _
        _ < 180 := h2
        _ ≤ ((180 : ℤ) : ℝ) := by norm_num
      rw [tmod180_of_nonneg (by omega) hfl2]
      rw [if_pos (by omega)]
      have h32 : angle3 ≤ angle2 := by linarith
      rw [min_comm, min_eq_left h32, max_eq_left h32]
    · have hneg : angle2 - angle3 ≤ -1 := by
        rcases abs_cases (angle2 - angle3) with ⟨heq, _⟩ | ⟨heq, _⟩
        · linarith
        · linarith
      rw [if_neg (show ¬ (0 : ℝ) ≤ angle2 - angle3 by linarith)]
      have hcl1 : ⌈angle2 - angle3⌉ ≤ -1 := Int.ceil_le.mpr (by exact_mod_cast hneg)
      have hcl2 : (-180 : ℤ) < ⌈angle2 - angle3⌉ := by
        apply Int.lt_ceil.mpr
        have : -(angle2 - angle3) ≤ |angle2 - angle3| := neg_le_abs _
        push_cast
        linarith
      rw [tmod180_of_nonpos hcl2 (by omega)]
      rw [if_neg (by omega)]
      have h23 : angle2 ≤ angle3 := by linarith
      rw [min_eq_left h23, max_comm, max_eq_left h23]
  · intro angle1 angle2 angle3 hd1 hd2
    unfold isAngleBetween castToInt
    have hge : (0 : ℝ) ≤ angle2 - angle3 := le_of_lt hd1
    rw [if_pos hge]
    have hfl : ⌊angle2 - angle3⌋ = 0 := by
      rw [Int.floor_eq_zero_iff]
      constructor
      · exact hge
      · exact hd2
    rw [hfl]
    rw [show (0 : ℤ).tmod 180 = 0 from Int.zero_tmod 180]
    rw [if_neg (by omega)]
    intro hcon
    linarith [hcon.1, hcon.2]

/-- Counterexample to C9 as stated: at `(θ1, θ2, θ3) = (0.5, 0.9, 0.1)` the
angle `θ1` lies strictly inside the shorter arc from `θ2` to `θ3`, yet
`isAngleBetween` rejects it (the truncated difference is 0, so the code
tests the empty interval `(0.9, 0.1)`). -/
theorem claim_C9_cex :
    specShorterArcBetween (1 / 2) (9 / 10) (1 / 10) ∧
      ¬ isAngleBetween (1 / 2) (9 / 10) (1 / 10) := by
  have habs : |(9 / 10 : ℝ) - 1 / 10| = 8 / 10 := by
    rw [show (9 / 10 : ℝ) - 1 / 10 = 8 / 10 by norm_num, abs_of_pos (by norm_num)]
  constructor
  · unfold specShorterArcBetween
    rw [if_pos (show |(9 / 10 : ℝ) - 1 / 10| < 180 by rw [habs]; norm_num)]
    rw [min_comm, min_eq_left (show (1 / 10 : ℝ) ≤ 9 / 10 by norm_num),
      max_eq_left (show (1 / 10 : ℝ) ≤ 9 / 10 by norm_num)]
    norm_num
  · unfold isAngleBetween castToInt
    rw [if_pos (show (0 : ℝ) ≤ 9 / 10 - 1 / 10 by norm_num)]
    rw [show ⌊(9 / 10 : ℝ) - 1 / 10⌋ = 0 from
      Int.floor_eq_zero_iff.mpr (by constructor <;> norm_num)]
    rw [show (0 : ℤ).tmod 180 = 0 from Int.zero_tmod 180]
    rw [if_neg (show ¬ (0 : ℤ) > 0 by omega)]
    intro hcon
    have := hcon.1
    norm_num at this

/-- Witness for C9 at `(45, 60, 20)`: the agreement direction of the amended
claim, instantiated on a concrete separated triple. -/
theorem claim_C9_witness : isAngleBetween 45 60 20 := by
  have habs : |(60 : ℝ) - 20| = 40 := by
    rw [show (60 : ℝ) - 20 = 40 by norm_num, abs_of_pos (by norm_num)]
  apply (claim_C9.1 45 60 20 (by rw [habs]; norm_num) (by rw [habs]; norm_num)).mpr
  unfold specShorterArcBetween
  rw [if_pos (show |(60 : ℝ) - 20| < 180 by rw [habs]; norm_num)]
  rw [min_comm, min_eq_left (show (20 : ℝ) ≤ 60 by norm_num),
    max_eq_left (show (20 : ℝ) ≤ 60 by norm_num)]
  norm_num

/-- C4: `isValidMinimalTriangle` accepts exactly when all three midpoint
conditions hold: the side-A midpoint equals `P[a-1]` within epsilon under
`SIDE_A_TANGENT` and otherwise lies on the side-A segment; the side-B
midpoint equals `P[b]` within epsilon under `SIDE_B_TANGENT` and otherwise
lies on the side-B segment; the side-C midpoint lies on the side-C segment
unless the flag is `SIDES_FLUSH`, in which case side C is trivially valid. -/
theorem claim_C4 (vertexA vertexB vertexC : Point2f) (polygon : Poly)
    (nrOfPoints a b validationFlag : ℕ)
    (sideAStartVertex sideAEndVertex sideBStartVertex sideBEndVertex
      sideCStartVertex sideCEndVertex : Point2f) :
    isValidMinimalTriangle vertexA vertexB vertexC polygon nrOfPoints a b validationFlag
        sideAStartVertex sideAEndVertex sideBStartVertex sideBEndVertex
        sideCStartVertex sideCEndVertex ↔
      ((if validationFlag = VALIDATION_SIDE_A_TANGENT then
          areEqualPoints (middlePoint vertexB vertexC) (pget polygon (predecessor a nrOfPoints))
        else
          isPointOnLineSegment (middlePoint vertexB vertexC) sideAStartVertex sideAEndVertex) ∧
       (if validationFlag = VALIDATION_SIDE_B_TANGENT then
          areEqualPoints (middlePoint vertexA vertexC) (pget polygon b)
        else
          isPointOnLineSegment (middlePoint vertexA vertexC) sideBStartVertex sideBEndVertex) ∧
       (validationFlag = VALIDATION_SIDES_FLUSH ∨
          isPointOnLineSegment (middlePoint vertexA vertexB) sideCStartVertex sideCEndVertex)) :=
  Iff.rfl

/-- C5: the best result starts as the empty triangle with area `DBL_MAX`, is
replaced only by a strictly smaller candidate, its area never increases
(also across any sequence of updates), and a non-empty stored triangle
always has exactly three vertices whose triangle area is the stored area. -/
theorem claim_C5 :
    initialise = ([], doubleMax) ∧
    (∀ (best : List Point2f × ℝ) vertexA vertexB vertexC,
      updateMinimumAreaEnclosingTriangle best vertexA vertexB vertexC =
        if areaOfTriangle vertexA vertexB vertexC < best.2 then
          ([vertexA, vertexB, vertexC], areaOfTriangle vertexA vertexB vertexC)
        else best) ∧
    (∀ (best : List Point2f × ℝ) vertexA vertexB vertexC,
      (updateMinimumAreaEnclosingTriangle best vertexA vertexB vertexC).2 ≤ best.2) ∧
    (∀ (best : List Point2f × ℝ) (cands : List (Point2f × Point2f × Point2f)),
      (cands.foldl
        (fun st t => updateMinimumAreaEnclosingTriangle st t.1 t.2.1 t.2.2) best).2 ≤ best.2) ∧
    BestInv initialise ∧
    (∀ (best : List Point2f × ℝ) vertexA vertexB vertexC, BestInv best →
      BestInv (updateMinimumAreaEnclosingTriangle best vertexA vertexB vertexC)) := by
  have hone : ∀ (best : List Point2f × ℝ) vertexA vertexB vertexC,
      (updateMinimumAreaEnclosingTriangle best vertexA vertexB vertexC).2 ≤ best.2 := by
    intro best vertexA vertexB vertexC
    unfold updateMinimumAreaEnclosingTriangle
    dsimp only
    split_ifs with h
    · exact le_of_lt h
    · exact le_refl _
  refine ⟨rfl, fun best vertexA vertexB vertexC => rfl, hone, ?_, Or.inl rfl, ?_⟩
  · intro best cands
    induction cands generalizing best with
    | nil => exact le_refl _
    | cons head tail ih =>
        calc (List.foldl _ (updateMinimumAreaEnclosingTriangle best head.1 head.2.1 head.2.2)
              tail).2 ≤ (updateMinimumAreaEnclosingTriangle best head.1 head.2.1 head.2.2).2 :=
                ih _
        _ ≤ best.2 := hone best head.1 head.2.1 head.2.2
  · intro best vertexA vertexB vertexC hinv
    unfold updateMinimumAreaEnclosingTriangle
    dsimp only
    split_ifs with h
    · exact Or.inr ⟨vertexA, vertexB, vertexC, rfl, rfl⟩
    · exact hinv

/-- Witness for C5: the invariant-preservation part applied to the initial
state and the concrete candidate `(0,0), (1,0), (0,1)`. -/
theorem claim_C5_witness :
    BestInv (updateMinimumAreaEnclosingTriangle ([], doubleMax) ⟨0, 0⟩ ⟨1, 0⟩ ⟨0, 1⟩) :=
  claim_C5.2.2.2.2.2 ([], doubleMax) ⟨0, 0⟩ ⟨1, 0⟩ ⟨0, 1⟩ (Or.inl rfl)

/-- C6: for polygons with `1 ≤ n ≤ 3` vertices the sweep driver is bypassed
and the result duplicates the polygon points cyclically,
`triangle[i] = polygon[i % n]`, with the area computed directly by
`areaOfTriangle`; in particular the single point `(5,5)` yields three copies
of `(5,5)` and area 0. -/
theorem claim_C6 :
    (∀ (fuel : ℕ) (polygon : Poly), 1 ≤ polygon.length → polygon.length ≤ 3 →
      findMinEnclosingTriangle fuel polygon =
        some (Except.ok
          ([pget polygon (0 % polygon.length), pget polygon (1 % polygon.length),
            pget polygon (2 % polygon.length)],
           areaOfTriangle (pget polygon (0 % polygon.length))
             (pget polygon (1 % polygon.length)) (pget polygon (2 % polygon.length))))) ∧
    (∀ fuel : ℕ, findMinEnclosingTriangle fuel [⟨5, 5⟩] =
      some (Except.ok ([⟨5, 5⟩, ⟨5, 5⟩, ⟨5, 5⟩], 0))) := by
  have hmain : ∀ (fuel : ℕ) (polygon : Poly), 1 ≤ polygon.length → polygon.length ≤ 3 →
      findMinEnclosingTriangle fuel polygon =
        some (Except.ok
          ([pget polygon (0 % polygon.length), pget polygon (1 % polygon.length),
            pget polygon (2 % polygon.length)],
           areaOfTriangle (pget polygon (0 % polygon.length))
             (pget polygon (1 % polygon.length)) (pget polygon (2 % polygon.length)))) := by
    intro fuel polygon h1 h2
    unfold findMinEnclosingTriangle
    rw [if_neg (by omega)]
    unfold returnMinimumAreaEnclosingTriangle initialise
    simp [pget]
  refine ⟨hmain, fun fuel => ?_⟩
  rw [hmain fuel [⟨5, 5⟩] (by simp) (by simp)]
  norm_num [pget, areaOfTriangle]

/-- Witness for C6 at the two-point polygon `[(0,0), (1,0)]`. -/
theorem claim_C6_witness :
    findMinEnclosingTriangle 0 [⟨0, 0⟩, ⟨1, 0⟩] =
      some (Except.ok ([⟨0, 0⟩, ⟨1, 0⟩, ⟨0, 0⟩], 0)) := by
  rw [claim_C6.1 0 [⟨0, 0⟩, ⟨1, 0⟩] (by simp) (by simp)]
  norm_num [pget, areaOfTriangle]

/-- `lineIntersection` fails when the determinant is `almostEqual` to 0. -/
theorem lineIntersection_eq_none {a1 b1 c1 a2 b2 c2 : ℝ}
    (h : almostEqual (a1 * b2 - a2 * b1) 0) :
    lineIntersection a1 b1 c1 a2 b2 c2 = none := by
  unfold lineIntersection
  dsimp only
  rw [if_neg (not_not_intro h)]

/-- `lineIntersection` succeeds when the determinant is not `almostEqual`
to 0. -/
theorem lineIntersection_eq_some {a1 b1 c1 a2 b2 c2 : ℝ}
    (h : ¬ almostEqual (a1 * b2 - a2 * b1) 0) :
    lineIntersection a1 b1 c1 a2 b2 c2 =
      some ⟨(c1 * b2 - c2 * b1) / (a1 * b2 - a2 * b1),
            (c2 * a1 - c1 * a2) / (a1 * b2 - a2 * b1)⟩ := by
  unfold lineIntersection
  dsimp only
  rw [if_pos h]

/-- Two points whose coordinates differ by at least `1/100` (and are at most
400 in size) are not `areEqualPoints`. -/
theorem not_areEqualPoints_of_x_gap {p q : Point2f} (hp : |p.x| ≤ 400) (hq : |q.x| ≤ 400)
    (h : 1 / 100 ≤ |p.x - q.x|) : ¬ areEqualPoints p q := by
  intro hcon
  exact not_almostEqual_of_gap hp hq h hcon.1

/-- Two points whose `y` coordinates differ by at least `1/100` (and are at
most 400 in size) are not `areEqualPoints`. -/
theorem not_areEqualPoints_of_y_gap {p q : Point2f} (hp : |p.y| ≤ 400) (hq : |q.y| ≤ 400)
    (h : 1 / 100 ≤ |p.y - q.y|) : ¬ areEqualPoints p q := by
  intro hcon
  exact not_almostEqual_of_gap hp hq h hcon.2

/-- Characterisation of `findGammaIntersectionPoints` when both side line
equations are derived without trapping. -/
theorem findGamma_char :
    ∀ (polygon : Poly) (nrOfPoints c idx : ℕ) (s1s s1e s2s s2e : Point2f)
      (p1 p2 : LineEqParams),
      lineEquationParameters s1s s1e = Except.ok p1 →
      lineEquationParameters s2s s2e = Except.ok p2 →
      ((findGammaIntersectionPoints polygon nrOfPoints c idx s1s s1e s2s s2e =
          Except.ok none ↔
        areIntersectingLines p1 p2 (2 * height idx polygon nrOfPoints c *
          Real.sqrt (p2.a * p2.a + p2.b * p2.b)) = none) ∧
       (∀ ips, areIntersectingLines p1 p2 (2 * height idx polygon nrOfPoints c *
            Real.sqrt (p2.a * p2.a + p2.b * p2.b)) = some ips →
          findGammaIntersectionPoints polygon nrOfPoints c idx s1s s1e s2s s2e =
            Except.ok (some
              (if areIdenticalLinesP p1 p2 (2 * height idx polygon nrOfPoints c *
                  Real.sqrt (p2.a * p2.a + p2.b * p2.b)) then
                (s1s, s1e)
              else ips)))) := by
  intro polygon nrOfPoints c idx s1s s1e s2s s2e p1 p2 h1 h2
  have hunfold : findGammaIntersectionPoints polygon nrOfPoints c idx s1s s1e s2s s2e =
      (match areIntersectingLines p1 p2 (2 * height idx polygon nrOfPoints c *
          Real.sqrt (p2.a * p2.a + p2.b * p2.b)) with
       | none => Except.ok none
       | some ips =>
           if areIdenticalLinesP p1 p2 (2 * height idx polygon nrOfPoints c *
               Real.sqrt (p2.a * p2.a + p2.b * p2.b)) then
             Except.ok (some (s1s, s1e))
           else Except.ok (some ips)) := by
    unfold findGammaIntersectionPoints
    rw [h1, h2]
    rfl
  constructor
  · rw [hunfold]
    cases hI : areIntersectingLines p1 p2 (2 * height idx polygon nrOfPoints c *
        Real.sqrt (p2.a * p2.a + p2.b * p2.b)) with
    | none => simp
    | some ips =>
        simp only []
        constructor
        · intro hcon
          split_ifs at hcon <;> simp at hcon
        · intro hcon
          exact absurd hcon (by simp)
  · intro ips hI
    rw [hunfold, hI]
    split_ifs with hid
    · rfl
    · rfl

/-- C8 (amended): given that both side line equations are derived without
trapping, `findGammaIntersectionPoints` returns false exactly when the
`almostEqual`-determinant test classifies side 1 and the displaced side 2
lines as non-intersecting (which includes the case where side 1 exactly
coincides with the displaced side 2 at moderate coefficient magnitudes),
and returns the two endpoints of side 1 as witnesses exactly when both
displaced-line intersections pass the determinant test and
`areIdenticalLines` additionally holds. -/
theorem claim_C8 :
    ∀ (polygon : Poly) (nrOfPoints c idx : ℕ) (s1s s1e s2s s2e : Point2f)
      (p1 p2 : LineEqParams),
      lineEquationParameters s1s s1e = Except.ok p1 →
      lineEquationParameters s2s s2e = Except.ok p2 →
      ((findGammaIntersectionPoints polygon nrOfPoints c idx s1s s1e s2s s2e =
          Except.ok none ↔
        areIntersectingLines p1 p2 (2 * height idx polygon nrOfPoints c *
          Real.sqrt (p2.a * p2.a + p2.b * p2.b)) = none) ∧
       (∀ ips, areIntersectingLines p1 p2 (2 * height idx polygon nrOfPoints c *
            Real.sqrt (p2.a * p2.a + p2.b * p2.b)) = some ips →
          findGammaIntersectionPoints polygon nrOfPoints c idx s1s s1e s2s s2e =
            Except.ok (some
              (if areIdenticalLinesP p1 p2 (2 * height idx polygon nrOfPoints c *
                  Real.sqrt (p2.a * p2.a + p2.b * p2.b)) then
                (s1s, s1e)
              else ips)))) :=
  findGamma_char

/-- Counterexample to C8 as stated: on the unit square with `c = 1` and
`p = P[0]` (which lies on side C, so the displacement `2*height(p)` is 0 and
the displaced side C is side C itself), side 1 `((0,0), (1,0))` exactly
coincides with the displaced side 2 `((1,0), (0,0))` — the code's own
`areIdenticalLines` holds — yet `findGammaIntersectionPoints` returns
false (`Except.ok none`) instead of succeeding with the endpoints of
side 1, because the determinant test rejects the pair first. -/
theorem claim_C8_cex :
    lineEquationParameters ⟨0, 0⟩ ⟨1, 0⟩ = Except.ok ⟨0, -1, 0⟩ ∧
    lineEquationParameters ⟨1, 0⟩ ⟨0, 0⟩ = Except.ok ⟨0, 1, 0⟩ ∧
    height 0 [⟨0, 0⟩, ⟨1, 0⟩, ⟨1, 1⟩, ⟨0, 1⟩] 4 1 = 0 ∧
    areIdenticalLinesP ⟨0, -1, 0⟩ ⟨0, 1, 0⟩ 0 ∧
    findGammaIntersectionPoints [⟨0, 0⟩, ⟨1, 0⟩, ⟨1, 1⟩, ⟨0, 1⟩] 4 1 0
      ⟨0, 0⟩ ⟨1, 0⟩ ⟨1, 0⟩ ⟨0, 0⟩ = Except.ok none := by
  have hne1 : ¬ areEqualPoints (⟨0, 0⟩ : Point2f) ⟨1, 0⟩ := by
    apply not_areEqualPoints_of_x_gap <;> norm_num [abs_le, le_abs]
  have hne2 : ¬ areEqualPoints (⟨1, 0⟩ : Point2f) ⟨0, 0⟩ := by
    apply not_areEqualPoints_of_x_gap <;> norm_num [abs_le, le_abs]
  have hp1 : lineEquationParameters (⟨0, 0⟩ : Point2f) ⟨1, 0⟩ = Except.ok ⟨0, -1, 0⟩ := by
    unfold lineEquationParameters lineEquationDeterminedByPoints
    rw [if_neg hne1]
    norm_num [LineEqParams.mk.injEq]
  have hp2 : lineEquationParameters (⟨1, 0⟩ : Point2f) ⟨0, 0⟩ = Except.ok ⟨0, 1, 0⟩ := by
    unfold lineEquationParameters lineEquationDeterminedByPoints
    rw [if_neg hne2]
    norm_num [LineEqParams.mk.injEq]
  have hheight : height 0 [(⟨0, 0⟩ : Point2f), ⟨1, 0⟩, ⟨1, 1⟩, ⟨0, 1⟩] 4 1 = 0 := by
    unfold height predecessor pget distanceFromPointToLine
    norm_num
  have hae0 : almostEqual 0 0 := almostEqual_self 0
  refine ⟨hp1, hp2, hheight, ?_, ?_⟩
  · unfold areIdenticalLinesP areIdenticalLines
    left
    norm_num
    exact hae0
  · have hExtra : 2 * height 0 [(⟨0, 0⟩ : Point2f), ⟨1, 0⟩, ⟨1, 1⟩, ⟨0, 1⟩] 4 1 *
        Real.sqrt ((0 : ℝ) * 0 + 1 * 1) = 0 := by
      rw [hheight]; ring
    have hdet : almostEqual ((0 : ℝ) * 1 - 0 * (-1)) 0 := by
      have hz : ((0 : ℝ) * 1 - 0 * (-1)) = 0 := by norm_num
      rw [hz]
      exact hae0
    have hInt : areIntersectingLines ⟨0, -1, 0⟩ ⟨0, 1, 0⟩
        (2 * height 0 [(⟨0, 0⟩ : Point2f), ⟨1, 0⟩, ⟨1, 1⟩, ⟨0, 1⟩] 4 1 *
          Real.sqrt ((0 : ℝ) * 0 + 1 * 1)) = none := by
      rw [hExtra]
      unfold areIntersectingLines
      dsimp only
      rw [lineIntersection_eq_none hdet, lineIntersection_eq_none hdet]
    have hunfold : findGammaIntersectionPoints [(⟨0, 0⟩ : Point2f), ⟨1, 0⟩, ⟨1, 1⟩, ⟨0, 1⟩]
        4 1 0 ⟨0, 0⟩ ⟨1, 0⟩ ⟨1, 0⟩ ⟨0, 0⟩ =
        (match areIntersectingLines ⟨0, -1, 0⟩ ⟨0, 1, 0⟩
            (2 * height 0 [(⟨0, 0⟩ : Point2f), ⟨1, 0⟩, ⟨1, 1⟩, ⟨0, 1⟩] 4 1 *
              Real.sqrt ((0 : ℝ) * 0 + 1 * 1)) with
         | none => Except.ok none
         | some ips =>
             if areIdenticalLinesP ⟨0, -1, 0⟩ ⟨0, 1, 0⟩
                 (2 * height 0 [(⟨0, 0⟩ : Point2f), ⟨1, 0⟩, ⟨1, 1⟩, ⟨0, 1⟩] 4 1 *
                   Real.sqrt ((0 : ℝ) * 0 + 1 * 1)) then
               Except.ok (some (⟨0, 0⟩, ⟨1, 0⟩))
             else Except.ok (some ips)) := by
      unfold findGammaIntersectionPoints
      rw [hp1, hp2]
      rfl
    rw [hunfold, hInt]

/-- Witness for C8: the success branch of the amended claim, instantiated
at a pair of perpendicular axis lines with zero displacement. -/
theorem claim_C8_witness :
    findGammaIntersectionPoints [⟨0, 0⟩] 1 0 0 ⟨0, 0⟩ ⟨0, 1⟩ ⟨0, 0⟩ ⟨1, 0⟩ =
      Except.ok (some (⟨0, 0⟩, ⟨0, 0⟩)) := by
  have hne1 : ¬ areEqualPoints (⟨0, 0⟩ : Point2f) ⟨0, 1⟩ := by
    apply not_areEqualPoints_of_y_gap <;> norm_num [abs_le, le_abs]
  have hne2 : ¬ areEqualPoints (⟨0, 0⟩ : Point2f) ⟨1, 0⟩ := by
    apply not_areEqualPoints_of_x_gap <;> norm_num [abs_le, le_abs]
  have hp1 : lineEquationParameters (⟨0, 0⟩ : Point2f) ⟨0, 1⟩ = Except.ok ⟨1, 0, 0⟩ := by
    unfold lineEquationParameters lineEquationDeterminedByPoints
    rw [if_neg hne1]
    norm_num [LineEqParams.mk.injEq]
  have hp2 : lineEquationParameters (⟨0, 0⟩ : Point2f) ⟨1, 0⟩ = Except.ok ⟨0, -1, 0⟩ := by
    unfold lineEquationParameters lineEquationDeterminedByPoints
    rw [if_neg hne2]
    norm_num [LineEqParams.mk.injEq]
  have hheight : height 0 [(⟨0, 0⟩ : Point2f)] 1 0 = 0 := by
    unfold height pget predecessor distanceFromPointToLine
    simp
  have hExtra : 2 * height 0 [(⟨0, 0⟩ : Point2f)] 1 0 *
      Real.sqrt ((0 : ℝ) * 0 + (-1) * (-1)) = 0 := by
    rw [hheight]; ring
  have hdetne : ¬ almostEqual ((1 : ℝ) * (-1) - 0 * 0) 0 := by
    have hz : ((1 : ℝ) * (-1) - 0 * 0) = -1 := by norm_num
    rw [hz]
    exact not_almostEqual_of_gap (by norm_num [abs_le]) (by norm_num [abs_le])
      (by norm_num [le_abs])
  have hI : areIntersectingLines ⟨1, 0, 0⟩ ⟨0, -1, 0⟩
      (2 * height 0 [(⟨0, 0⟩ : Point2f)] 1 0 * Real.sqrt ((0 : ℝ) * 0 + (-1) * (-1))) =
      some (⟨0, 0⟩, ⟨0, 0⟩) := by
    rw [hExtra]
    unfold areIntersectingLines
    dsimp only
    rw [lineIntersection_eq_some hdetne, lineIntersection_eq_some hdetne]
    norm_num [Point2f.mk.injEq, Prod.mk.injEq]
  have hnotae : ¬ almostEqual ((1 : ℝ) * (-1)) ((0 : ℝ) * 0) := by
    have h1 : ((1 : ℝ) * (-1)) = -1 := by norm_num
    have h2 : ((0 : ℝ) * 0) = 0 := by norm_num
    rw [h1, h2]
    exact not_almostEqual_of_gap (by norm_num [abs_le]) (by norm_num [abs_le])
      (by norm_num [le_abs])
  have hid : ¬ areIdenticalLinesP ⟨1, 0, 0⟩ ⟨0, -1, 0⟩
      (2 * height 0 [(⟨0, 0⟩ : Point2f)] 1 0 * Real.sqrt ((0 : ℝ) * 0 + (-1) * (-1))) := by
    intro hcon
    rcases hcon with ⟨ha, -, -⟩ | ⟨ha, -, -⟩ <;> exact hnotae ha
  obtain ⟨-, h2⟩ := claim_C8 [⟨0, 0⟩] 1 0 0 ⟨0, 0⟩ ⟨0, 1⟩ ⟨0, 0⟩ ⟨1, 0⟩ ⟨1, 0, 0⟩ ⟨0, -1, 0⟩
    hp1 hp2
  rw [h2 (⟨0, 0⟩, ⟨0, 0⟩) hI]
  rw [if_neg hid]

/-- The only error `lineEquationDeterminedByPoints` can raise is its
point-coincidence assertion. -/
theorem lineEquationDeterminedByPoints_error {p q : Point2f} {e : String}
    (h : lineEquationDeterminedByPoints p q = Except.error e) : e = CV_ASSERT_POINTS_MSG := by
  unfold lineEquationDeterminedByPoints at h
  split_ifs at h
  injection h with h1
  exact h1.symm

/-- The only error `lineEquationParameters` can raise is the assertion. -/
theorem lineEquationParameters_error {p q : Point2f} {e : String}
    (h : lineEquationParameters p q = Except.error e) : e = CV_ASSERT_POINTS_MSG :=
  lineEquationDeterminedByPoints_error h

/-- The only error `areOnTheSameSideOfLine` can raise is the assertion. -/
theorem areOnTheSameSideOfLine_error {p1 p2 a b : Point2f} {e : String}
    (h : areOnTheSameSideOfLine p1 p2 a b = Except.error e) : e = CV_ASSERT_POINTS_MSG := by
  unfold areOnTheSameSideOfLine at h
  cases hL : lineEquationDeterminedByPoints a b with
  | error e1 =>
      rw [hL] at h
      have h2 : (Except.error e1 : Except String Prop) = Except.error e := h
      injection h2 with h3
      exact h3 ▸ lineEquationDeterminedByPoints_error hL
  | ok t =>
      rw [hL] at h
      have h2 : (Except.ok (sign (t.a * p1.x + t.b * p1.y + t.c) =
          sign (t.a * p2.x + t.b * p2.y + t.c)) : Except String Prop) = Except.error e := h
      exact Except.noConfusion h2

/-- The only error `findGammaIntersectionPoints` can raise is the
assertion. -/
theorem findGammaIntersectionPoints_error {polygon : Poly} {nrOfPoints c idx : ℕ}
    {s1s s1e s2s s2e : Point2f} {e : String}
    (h : findGammaIntersectionPoints polygon nrOfPoints c idx s1s s1e s2s s2e =
      Except.error e) : e = CV_ASSERT_POINTS_MSG := by
  unfold findGammaIntersectionPoints at h
  cases h1 : lineEquationParameters s1s s1e with
  | error e1 =>
      rw [h1] at h
      have h2 : (Except.error e1 : Except String (Option (Point2f × Point2f))) =
        Except.error e := h
      injection h2 with h3
      exact h3 ▸ lineEquationParameters_error h1
  | ok p1 =>
      rw [h1] at h
      cases h2 : lineEquationParameters s2s s2e with
      | error e2 =>
          rw [h2] at h
          have h3 : (Except.error e2 : Except String (Option (Point2f × Point2f))) =
            Except.error e := h
          injection h3 with h4
          exact h4 ▸ lineEquationParameters_error h2
      | ok p2 =>
          rw [h2] at h
          have hunfold : (do
              let side1Params ← (Except.ok p1 : Except String LineEqParams)
              let side2Params ← (Except.ok p2 : Except String LineEqParams)
              let polygonPointHeight := height idx polygon nrOfPoints c
              let distFormulaDenom := Real.sqrt (side2Params.a * side2Params.a +
                side2Params.b * side2Params.b)
              let sideCExtraParam := 2 * polygonPointHeight * distFormulaDenom
              match areIntersectingLines side1Params side2Params sideCExtraParam with
              | none => pure none
              | some ips =>
                  if areIdenticalLinesP side1Params side2Params sideCExtraParam then
                    pure (some (s1s, s1e))
                  else
                    pure (some ips) : Except String (Option (Point2f × Point2f))) =
              (match areIntersectingLines p1 p2 (2 * height idx polygon nrOfPoints c *
                  Real.sqrt (p2.a * p2.a + p2.b * p2.b)) with
               | none => Except.ok none
               | some ips =>
                   if areIdenticalLinesP p1 p2 (2 * height idx polygon nrOfPoints c *
                       Real.sqrt (p2.a * p2.a + p2.b * p2.b)) then
                     Except.ok (some (s1s, s1e))
                   else Except.ok (some ips)) := rfl
          rw [hunfold] at h
          cases hI : areIntersectingLines p1 p2 (2 * height idx polygon nrOfPoints c *
              Real.sqrt (p2.a * p2.a + p2.b * p2.b)) with
          | none =>
              rw [hI] at h
              exact Except.noConfusion h
          | some ips =>
              rw [hI] at h
              split_ifs at h

/-- The only error `gamma` can raise is the assertion. -/
theorem gamma_error {polygon : Poly} {nrOfPoints a c idx : ℕ} {e : String}
    (h : gamma idx polygon nrOfPoints a c = Except.error e) : e = CV_ASSERT_POINTS_MSG := by
  unfold gamma at h
  cases hF : findGammaIntersectionPoints polygon nrOfPoints c idx (pget polygon a)
      (pget polygon (predecessor a nrOfPoints)) (pget polygon c)
      (pget polygon (predecessor c nrOfPoints)) with
  | error e1 =>
      rw [hF] at h
      have h2 : (Except.error e1 : Except String (Option Point2f)) = Except.error e := h
      injection h2 with h3
      exact h3 ▸ findGammaIntersectionPoints_error hF
  | ok r =>
      rw [hF] at h
      match r, h with
      | none, h =>
          have h2 : (Except.ok (none : Option Point2f) : Except String (Option Point2f)) =
            Except.error e := h
          exact Except.noConfusion h2
      | some (ip1, ip2), h =>
          have h' : (do
              let sameSide ← areOnTheSameSideOfLine ip1 (pget polygon (successor c nrOfPoints))
                (pget polygon c) (pget polygon (predecessor c nrOfPoints))
              pure (some (if sameSide then ip1 else ip2)) : Except String (Option Point2f)) =
              Except.error e := h
          cases hS : areOnTheSameSideOfLine ip1 (pget polygon (successor c nrOfPoints))
              (pget polygon c) (pget polygon (predecessor c nrOfPoints)) with
          | error e2 =>
              rw [hS] at h'
              have h2 : (Except.error e2 : Except String (Option Point2f)) =
                Except.error e := h'
              injection h2 with h3
              exact h3 ▸ areOnTheSameSideOfLine_error hS
          | ok sameSide =>
              rw [hS] at h'
              have h2 : (Except.ok (some (if sameSide then ip1 else ip2)) :
                Except String (Option Point2f)) = Except.error e := h'
              exact Except.noConfusion h2

/-- The only error one `moveAIfLowAndBIfHigh` loop body can raise is the
assertion (through `gamma`). -/
theorem moveABStep_error {polygon : Poly} {nrOfPoints a b c : ℕ} {e : String}
    (h : moveABStep polygon nrOfPoints a b c = Except.error e) : e = CV_ASSERT_POINTS_MSG := by
  unfold moveABStep at h
  cases hg : gamma a polygon nrOfPoints a c with
  | error e1 =>
      rw [hg] at h
      have h2 : (Except.error e1 : Except String (ℕ × ℕ)) = Except.error e := h
      injection h2 with h3
      exact h3 ▸ gamma_error hg
  | ok r =>
      rw [hg] at h
      match r, h with
      | none, h => exact Except.noConfusion (show (Except.ok (advance a nrOfPoints, b) :
          Except String (ℕ × ℕ)) = Except.error e from h)
      | some g, h =>
          have h' : (if intersectsBelow g b polygon nrOfPoints c then
              (Except.ok (a, advance b nrOfPoints) : Except String (ℕ × ℕ))
            else Except.ok (advance a nrOfPoints, b)) = Except.error e := h
          split_ifs at h'

/-- The only error the `moveAIfLowAndBIfHigh` loop can raise is the
assertion. -/
theorem moveAIfLowAndBIfHigh_error : ∀ {fuel : ℕ} {polygon : Poly} {nrOfPoints a b c : ℕ}
    {e : String}, moveAIfLowAndBIfHigh fuel polygon nrOfPoints a b c =
      some (Except.error e) → e = CV_ASSERT_POINTS_MSG := by
  intro fuel
  induction fuel with
  | zero =>
      intro polygon nrOfPoints a b c e h
      exact Option.noConfusion (show (none : Option (Except String (ℕ × ℕ))) =
        some (Except.error e) from h)
  | succ fuel ih =>
      intro polygon nrOfPoints a b c e h
      unfold moveAIfLowAndBIfHigh at h
      split_ifs at h
      · cases hstep : moveABStep polygon nrOfPoints a b c with
        | error e1 =>
            rw [hstep] at h
            have h2 : (some (Except.error e1) : Option (Except String (ℕ × ℕ))) =
              some (Except.error e) := h
            injection h2 with h3
            injection h3 with h4
            exact h4 ▸ moveABStep_error hstep
        | ok ab =>
            rw [hstep] at h
            exact ih (show moveAIfLowAndBIfHigh fuel polygon nrOfPoints ab.1 ab.2 c =
              some (Except.error e) from h)
      · have h2 : (some (Except.ok (a, b)) : Option (Except String (ℕ × ℕ))) =
          some (Except.error e) := h
        injection h2 with h3
        exact Except.noConfusion h3

/-- The only error the `searchForBTangency` loop can raise is the
assertion. -/
theorem searchForBTangency_error : ∀ {fuel : ℕ} {polygon : Poly} {nrOfPoints a b c : ℕ}
    {e : String}, searchForBTangency fuel polygon nrOfPoints a b c =
      some (Except.error e) → e = CV_ASSERT_POINTS_MSG := by
  intro fuel
  induction fuel with
  | zero =>
      intro polygon nrOfPoints a b c e h
      exact Option.noConfusion (show (none : Option (Except String ℕ)) =
        some (Except.error e) from h)
  | succ fuel ih =>
      intro polygon nrOfPoints a b c e h
      unfold searchForBTangency at h
      cases hg : gamma b polygon nrOfPoints a c with
      | error e1 =>
          rw [hg] at h
          have h2 : (some (Except.error e1) : Option (Except String ℕ)) =
            some (Except.error e) := h
          injection h2 with h3
          injection h3 with h4
          exact h4 ▸ gamma_error hg
      | ok r =>
          rw [hg] at h
          match r, h with
          | none, h =>
              have h2 : (some (Except.ok b) : Option (Except String ℕ)) =
                some (Except.error e) := h
              injection h2 with h3
              exact Except.noConfusion h3
          | some g, h =>
              have h' : (if intersectsBelow g b polygon nrOfPoints c ∧
                  greaterOrEqual (height b polygon nrOfPoints c)
                    (height (predecessor a nrOfPoints) polygon nrOfPoints c) then
                  searchForBTangency fuel polygon nrOfPoints a (advance b nrOfPoints) c
                else some (Except.ok b)) = some (Except.error e) := h
              split_ifs at h' with hc
              · exact ih h'
              · have h2 : (some (Except.ok b) : Option (Except String ℕ)) =
                  some (Except.error e) := h'
                injection h2 with h3
                exact Except.noConfusion h3

/-- The only error `isNotBTangency` can raise is the assertion. -/
theorem isNotBTangency_error {polygon : Poly} {nrOfPoints a b c : ℕ} {e : String}
    (h : isNotBTangency polygon nrOfPoints a b c = Except.error e) :
    e = CV_ASSERT_POINTS_MSG := by
  unfold isNotBTangency at h
  cases hg : gamma b polygon nrOfPoints a c with
  | error e1 =>
      rw [hg] at h
      have h2 : (Except.error e1 : Except String Prop) = Except.error e := h
      injection h2 with h3
      exact h3 ▸ gamma_error hg
  | ok r =>
      rw [hg] at h
      match r, h with
      | none, h =>
          exact Except.noConfusion (show (Except.ok (height b polygon nrOfPoints c <
            height (predecessor a nrOfPoints) polygon nrOfPoints c) : Except String Prop) =
            Except.error e from h)
      | some g, h =>
          exact Except.noConfusion (show (Except.ok
            (intersectsAbove g b polygon nrOfPoints c ∨ height b polygon nrOfPoints c <
              height (predecessor a nrOfPoints) polygon nrOfPoints c) : Except String Prop) =
            Except.error e from h)

/-- The errors `updateSideB` can raise are `ERR_SIDE_B_GAMMA` and the
assertion. -/
theorem updateSideB_error {polygon : Poly} {nrOfPoints a b c : ℕ} {e : String}
    (h : updateSideB polygon nrOfPoints a b c = Except.error e) :
    e = ERR_SIDE_B_GAMMA ∨ e = CV_ASSERT_POINTS_MSG := by
  unfold updateSideB at h
  cases hg : gamma b polygon nrOfPoints a c with
  | error e1 =>
      rw [hg] at h
      have h2 : (Except.error e1 : Except String ((Point2f × Point2f) × ℕ)) =
        Except.error e := h
      injection h2 with h3
      exact Or.inr (h3 ▸ gamma_error hg)
  | ok r =>
      rw [hg] at h
      match r, h with
      | none, h =>
          have h2 : (Except.error ERR_SIDE_B_GAMMA :
            Except String ((Point2f × Point2f) × ℕ)) = Except.error e := h
          injection h2 with h3
          exact Or.inl h3.symm
      | some g, h =>
          exact Except.noConfusion (show (Except.ok ((g, pget polygon b),
            VALIDATION_SIDE_B_TANGENT) : Except String ((Point2f × Point2f) × ℕ)) =
            Except.error e from h)

/-- The errors `findVertexCOnSideB` can raise are `ERR_VERTEX_C_ON_SIDE_B`
and the assertion. -/
theorem findVertexCOnSideB_error {polygon : Poly} {nrOfPoints a c : ℕ}
    {sBs sBe sCs sCe : Point2f} {e : String}
    (h : findVertexCOnSideB polygon nrOfPoints a c sBs sBe sCs sCe = Except.error e) :
    e = ERR_VERTEX_C_ON_SIDE_B ∨ e = CV_ASSERT_POINTS_MSG := by
  unfold findVertexCOnSideB at h
  cases hF : findGammaIntersectionPoints polygon nrOfPoints c (predecessor a nrOfPoints)
      sBs sBe sCs sCe with
  | error e1 =>
      rw [hF] at h
      have h2 : (Except.error e1 : Except String Point2f) = Except.error e := h
      injection h2 with h3
      exact Or.inr (h3 ▸ findGammaIntersectionPoints_error hF)
  | ok r =>
      rw [hF] at h
      match r, h with
      | none, h =>
          have h2 : (Except.error ERR_VERTEX_C_ON_SIDE_B : Except String Point2f) =
            Except.error e := h
          injection h2 with h3
          exact Or.inl h3.symm
      | some (ip1, ip2), h =>
          have h' : (do
              let sameSide ← areOnTheSameSideOfLine ip1 (pget polygon (successor c nrOfPoints))
                (pget polygon c) (pget polygon (predecessor c nrOfPoints))
              pure (if sameSide then ip1 else ip2) : Except String Point2f) =
              Except.error e := h
          cases hS : areOnTheSameSideOfLine ip1 (pget polygon (successor c nrOfPoints))
              (pget polygon c) (pget polygon (predecessor c nrOfPoints)) with
          | error e2 =>
              rw [hS] at h'
              have h2 : (Except.error e2 : Except String Point2f) = Except.error e := h'
              injection h2 with h3
              exact Or.inr (h3 ▸ areOnTheSameSideOfLine_error hS)
          | ok sameSide =>
              rw [hS] at h'
              exact Except.noConfusion (show (Except.ok (if sameSide then ip1 else ip2) :
                Except String Point2f) = Except.error e from h')

/-- The errors `updateSidesBA` can raise are `ERR_VERTEX_C_ON_SIDE_B` and
the assertion. -/
theorem updateSidesBA_error {polygon : Poly} {nrOfPoints a b c : ℕ}
    {sAs sAe sCs sCe : Point2f} {e : String}
    (h : updateSidesBA polygon nrOfPoints a b c sAs sAe sCs sCe = Except.error e) :
    e = ERR_VERTEX_C_ON_SIDE_B ∨ e = CV_ASSERT_POINTS_MSG := by
  unfold updateSidesBA at h
  dsimp only at h
  cases hM : middlePointOfSideB sAs sAe (pget polygon (predecessor b nrOfPoints))
      (pget polygon b) sCs sCe with
  | none =>
      rw [hM] at h
      exact Except.noConfusion (show (Except.ok ((sAs, sAe),
        (pget polygon (predecessor b nrOfPoints), pget polygon b), VALIDATION_SIDES_FLUSH) :
        Except String ((Point2f × Point2f) × (Point2f × Point2f) × ℕ)) =
        Except.error e from h)
  | some m =>
      rw [hM] at h
      have h' : (if heightPoint m polygon nrOfPoints c <
            height (predecessor a nrOfPoints) polygon nrOfPoints c then
          (do
            let vtx ← findVertexCOnSideB polygon nrOfPoints a c
              (pget polygon (predecessor b nrOfPoints)) (pget polygon b) sCs sCe
            pure ((pget polygon (predecessor a nrOfPoints), vtx),
              (pget polygon (predecessor b nrOfPoints), pget polygon b),
              VALIDATION_SIDE_A_TANGENT) :
            Except String ((Point2f × Point2f) × (Point2f × Point2f) × ℕ))
        else
          Except.ok ((sAs, sAe), (pget polygon (predecessor b nrOfPoints), pget polygon b),
            VALIDATION_SIDES_FLUSH)) = Except.error e := h
      split_ifs at h' with hc
      · cases hV : findVertexCOnSideB polygon nrOfPoints a c
            (pget polygon (predecessor b nrOfPoints)) (pget polygon b) sCs sCe with
        | error e1 =>
            rw [hV] at h'
            have h2 : (Except.error e1 :
              Except String ((Point2f × Point2f) × (Point2f × Point2f) × ℕ)) =
              Except.error e := h'
            injection h2 with h3
            exact h3 ▸ findVertexCOnSideB_error hV
        | ok vtx =>
            rw [hV] at h'
            exact Except.noConfusion (show (Except.ok
              ((pget polygon (predecessor a nrOfPoints), vtx),
               (pget polygon (predecessor b nrOfPoints), pget polygon b),
               VALIDATION_SIDE_A_TANGENT) :
              Except String ((Point2f × Point2f) × (Point2f × Point2f) × ℕ)) =
              Except.error e from h')

/-- The errors one sweep iteration can raise are the two named invariant
violations and the assertion. -/
theorem sweepIteration_error {fuel : ℕ} {polygon : Poly} {nrOfPoints a b c : ℕ}
    {best : List Point2f × ℝ} {e : String}
    (h : sweepIteration fuel polygon nrOfPoints a b c best = some (Except.error e)) :
    e = ERR_SIDE_B_GAMMA ∨ e = ERR_VERTEX_C_ON_SIDE_B ∨ e = CV_ASSERT_POINTS_MSG := by
  unfold sweepIteration at h
  cases hA : advanceBToRightChain fuel polygon nrOfPoints b c with
  | none =>
      rw [hA] at h
      exact Option.noConfusion (show (none : Option (Except String
        (ℕ × ℕ × (List Point2f × ℝ)))) = some (Except.error e) from h)
  | some b1 =>
      rw [hA] at h
      dsimp only at h
      cases hM : moveAIfLowAndBIfHigh fuel polygon nrOfPoints a b1 c with
      | none =>
          rw [hM] at h
          exact Option.noConfusion (show (none : Option (Except String
            (ℕ × ℕ × (List Point2f × ℝ)))) = some (Except.error e) from h)
      | some mr =>
          rw [hM] at h
          match mr, hM, h with
          | Except.error e1, hM, h =>
              have h2 : (some (Except.error e1) : Option (Except String
                (ℕ × ℕ × (List Point2f × ℝ)))) = some (Except.error e) := h
              injection h2 with h3
              injection h3 with h4
              exact Or.inr (Or.inr (h4 ▸ moveAIfLowAndBIfHigh_error hM))
          | Except.ok (a1, b2), hM, h =>
              dsimp only at h
              cases hS : searchForBTangency fuel polygon nrOfPoints a1 b2 c with
              | none =>
                  rw [hS] at h
                  exact Option.noConfusion (show (none : Option (Except String
                    (ℕ × ℕ × (List Point2f × ℝ)))) = some (Except.error e) from h)
              | some sr =>
                  rw [hS] at h
                  match sr, hS, h with
                  | Except.error e1, hS, h =>
                      have h2 : (some (Except.error e1) : Option (Except String
                        (ℕ × ℕ × (List Point2f × ℝ)))) = some (Except.error e) := h
                      injection h2 with h3
                      injection h3 with h4
                      exact Or.inr (Or.inr (h4 ▸ searchForBTangency_error hS))
                  | Except.ok b3, hS, h =>
                      dsimp only at h
                      cases hT : isNotBTangency polygon nrOfPoints a1 b3 c with
                      | error e1 =>
                          rw [hT] at h
                          have h2 : (some (Except.error e1) : Option (Except String
                            (ℕ × ℕ × (List Point2f × ℝ)))) = some (Except.error e) := h
                          injection h2 with h3
                          injection h3 with h4
                          exact Or.inr (Or.inr (h4 ▸ isNotBTangency_error hT))
                      | ok notB =>
                          rw [hT] at h
                          have h' : (if notB then
                              (match updateSidesBA polygon nrOfPoints a1 b3 c
                                  (updateSidesCA polygon nrOfPoints a1 c).1.1
                                  (updateSidesCA polygon nrOfPoints a1 c).1.2
                                  (updateSidesCA polygon nrOfPoints a1 c).2.1
                                  (updateSidesCA polygon nrOfPoints a1 c).2.2 with
                               | Except.error e => some (Except.error e)
                               | Except.ok (sideA, sideB, validationFlag) =>
                                   some (Except.ok (a1, b3,
                                     applyCandidate polygon nrOfPoints a1 b3 validationFlag
                                       sideA.1 sideA.2 sideB.1 sideB.2
                                       (updateSidesCA polygon nrOfPoints a1 c).2.1
                                       (updateSidesCA polygon nrOfPoints a1 c).2.2 best)))
                            else
                              (match updateSideB polygon nrOfPoints a1 b3 c with
                               | Except.error e => some (Except.error e)
                               | Except.ok (sideB, validationFlag) =>
                                   some (Except.ok (a1, b3,
                                     applyCandidate polygon nrOfPoints a1 b3 validationFlag
                                       (updateSidesCA polygon nrOfPoints a1 c).1.1
                                       (updateSidesCA polygon nrOfPoints a1 c).1.2
                                       sideB.1 sideB.2
                                       (updateSidesCA polygon nrOfPoints a1 c).2.1
                                       (updateSidesCA polygon nrOfPoints a1 c).2.2 best)))) =
                              some (Except.error e) := h
                          split_ifs at h' with hc
                          · cases hU : updateSidesBA polygon nrOfPoints a1 b3 c
                                (updateSidesCA polygon nrOfPoints a1 c).1.1
                                (updateSidesCA polygon nrOfPoints a1 c).1.2
                                (updateSidesCA polygon nrOfPoints a1 c).2.1
                                (updateSidesCA polygon nrOfPoints a1 c).2.2 with
                            | error e1 =>
                                rw [hU] at h'
                                have h2 : (some (Except.error e1) : Option (Except String
                                  (ℕ × ℕ × (List Point2f × ℝ)))) = some (Except.error e) := h'
                                injection h2 with h3
                                injection h3 with h4
                                rcases h4 ▸ updateSidesBA_error hU with h5 | h5
                                · exact Or.inr (Or.inl h5)
                                · exact Or.inr (Or.inr h5)
                            | ok sbf =>
                                rw [hU] at h'
                                match sbf, h' with
                                | (sideA, sideB, validationFlag), h' =>
                                    have h2 : (some (Except.ok (a1, b3,
                                      applyCandidate polygon nrOfPoints a1 b3 validationFlag
                                        sideA.1 sideA.2 sideB.1 sideB.2
                                        (updateSidesCA polygon nrOfPoints a1 c).2.1
                                        (updateSidesCA polygon nrOfPoints a1 c).2.2 best)) :
                                      Option (Except String (ℕ × ℕ × (List Point2f × ℝ)))) =
                                      some (Except.error e) := h'
                                    injection h2 with h3
                                    exact Except.noConfusion h3
                          · cases hU : updateSideB polygon nrOfPoints a1 b3 c with
                            | error e1 =>
                                rw [hU] at h'
                                have h2 : (some (Except.error e1) : Option (Except String
                                  (ℕ × ℕ × (List Point2f × ℝ)))) = some (Except.error e) := h'
                                injection h2 with h3
                                injection h3 with h4
                                rcases h4 ▸ updateSideB_error hU with h5 | h5
                                · exact Or.inl h5
                                · exact Or.inr (Or.inr h5)
                            | ok sbf =>
                                rw [hU] at h'
                                match sbf, h' with
                                | (sideB, validationFlag), h' =>
                                    have h2 : (some (Except.ok (a1, b3,
                                      applyCandidate polygon nrOfPoints a1 b3 validationFlag
                                        (updateSidesCA polygon nrOfPoints a1 c).1.1
                                        (updateSidesCA polygon nrOfPoints a1 c).1.2
                                        sideB.1 sideB.2
                                        (updateSidesCA polygon nrOfPoints a1 c).2.1
                                        (updateSidesCA polygon nrOfPoints a1 c).2.2 best)) :
                                      Option (Except String (ℕ × ℕ × (List Point2f × ℝ)))) =
                                      some (Except.error e) := h'
                                    injection h2 with h3
                                    exact Except.noConfusion h3

/-- The errors the whole sweep loop can raise are the two named invariant
violations and the assertion. -/
theorem sweepLoop_error : ∀ {k fuel : ℕ} {polygon : Poly} {nrOfPoints a b c : ℕ}
    {best : List Point2f × ℝ} {e : String},
    sweepLoop fuel polygon nrOfPoints k a b c best = some (Except.error e) →
    e = ERR_SIDE_B_GAMMA ∨ e = ERR_VERTEX_C_ON_SIDE_B ∨ e = CV_ASSERT_POINTS_MSG := by
  intro k
  induction k with
  | zero =>
      intro fuel polygon nrOfPoints a b c best e h
      have h2 : (some (Except.ok best) : Option (Except String (List Point2f × ℝ))) =
        some (Except.error e) := h
      injection h2 with h3
      exact Except.noConfusion h3
  | succ k ih =>
      intro fuel polygon nrOfPoints a b c best e h
      unfold sweepLoop at h
      cases hI : sweepIteration fuel polygon nrOfPoints a b c best with
      | none =>
          rw [hI] at h
          exact Option.noConfusion (show (none : Option (Except String
            (List Point2f × ℝ))) = some (Except.error e) from h)
      | some ir =>
          rw [hI] at h
          match ir, hI, h with
          | Except.error e1, hI, h =>
              have h2 : (some (Except.error e1) : Option (Except String
                (List Point2f × ℝ))) = some (Except.error e) := h
              injection h2 with h3
              injection h3 with h4
              exact h4 ▸ sweepIteration_error hI
          | Except.ok (a1, b1, best1), hI, h =>
              exact ih (show sweepLoop fuel polygon nrOfPoints k a1 b1 (c + 1) best1 =
                some (Except.error e) from h)

/-- `lineIntersectionPts` fails when the derived determinant is
`almostEqual` to 0. -/
theorem lineIntersectionPts_eq_none {a1 b1 a2 b2 : Point2f}
    (h : almostEqual ((b1.y - a1.y) * (a2.x - b2.x) - (b2.y - a2.y) * (a1.x - b1.x)) 0) :
    lineIntersectionPts a1 b1 a2 b2 = none := by
  unfold lineIntersectionPts
  dsimp only
  rw [if_neg (not_not_intro h)]

/-- C3 (amended): `updateSideB` raises `ERR_SIDE_B_GAMMA` exactly when
`gamma(b)` returns false, and `findVertexCOnSideB` raises
`ERR_VERTEX_C_ON_SIDE_B` exactly when its gamma intersection returns false;
any failing side-pair line intersection makes `isLocalMinimalTriangle`
return false, in which case the sweep step leaves the best triangle and
area unchanged; and the fatal errors of the sweep are the two named
invariant violations TOGETHER WITH the point-coincidence assertion of
`lineEquationDeterminedByPoints` (which can fire when two defining points
of a side are equal within epsilon). -/
theorem claim_C3 :
    (∀ (polygon : Poly) (nrOfPoints a b c : ℕ),
        updateSideB polygon nrOfPoints a b c = Except.error ERR_SIDE_B_GAMMA ↔
          gamma b polygon nrOfPoints a c = Except.ok none) ∧
    (∀ (polygon : Poly) (nrOfPoints a c : ℕ) (sBs sBe sCs sCe : Point2f),
        findVertexCOnSideB polygon nrOfPoints a c sBs sBe sCs sCe =
            Except.error ERR_VERTEX_C_ON_SIDE_B ↔
          findGammaIntersectionPoints polygon nrOfPoints c (predecessor a nrOfPoints)
            sBs sBe sCs sCe = Except.ok none) ∧
    (∀ (polygon : Poly) (nrOfPoints a b validationFlag : ℕ)
        (sAs sAe sBs sBe sCs sCe : Point2f),
        (lineIntersectionPts sAs sAe sBs sBe = none ∨
         lineIntersectionPts sAs sAe sCs sCe = none ∨
         lineIntersectionPts sBs sBe sCs sCe = none) →
        isLocalMinimalTriangle polygon nrOfPoints a b validationFlag
          sAs sAe sBs sBe sCs sCe = none) ∧
    (∀ (polygon : Poly) (nrOfPoints a b validationFlag : ℕ)
        (sAs sAe sBs sBe sCs sCe : Point2f) (best : List Point2f × ℝ),
        isLocalMinimalTriangle polygon nrOfPoints a b validationFlag
          sAs sAe sBs sBe sCs sCe = none →
        applyCandidate polygon nrOfPoints a b validationFlag
          sAs sAe sBs sBe sCs sCe best = best) ∧
    (∀ (fuel : ℕ) (polygon : Poly) (nrOfPoints a b c : ℕ) (best : List Point2f × ℝ)
        (e : String),
        sweepIteration fuel polygon nrOfPoints a b c best = some (Except.error e) →
        e = ERR_SIDE_B_GAMMA ∨ e = ERR_VERTEX_C_ON_SIDE_B ∨ e = CV_ASSERT_POINTS_MSG) ∧
    (∀ (fuel : ℕ) (polygon : Poly) (best : List Point2f × ℝ) (e : String),
        findMinimumAreaEnclosingTriangle fuel polygon best = some (Except.error e) →
        e = ERR_SIDE_B_GAMMA ∨ e = ERR_VERTEX_C_ON_SIDE_B ∨ e = CV_ASSERT_POINTS_MSG) := by
  refine ⟨?_, ?_, ?_, ?_, ?_, ?_⟩
  · intro polygon nrOfPoints a b c
    constructor
    · intro h
      unfold updateSideB at h
      cases hg : gamma b polygon nrOfPoints a c with
      | error e1 =>
          rw [hg] at h
          have h2 : (Except.error e1 : Except String ((Point2f × Point2f) × ℕ)) =
            Except.error ERR_SIDE_B_GAMMA := h
          injection h2 with h3
          have h4 : ERR_SIDE_B_GAMMA = CV_ASSERT_POINTS_MSG := h3 ▸ gamma_error hg
          exact absurd h4 (by decide)
      | ok r =>
          rw [hg] at h
          match r, hg, h with
          | none, hg, h => rfl
          | some g, hg, h =>
              exact Except.noConfusion (show (Except.ok ((g, pget polygon b),
                VALIDATION_SIDE_B_TANGENT) : Except String ((Point2f × Point2f) × ℕ)) =
                Except.error ERR_SIDE_B_GAMMA from h)
    · intro hg
      unfold updateSideB
      rw [hg]
  · intro polygon nrOfPoints a c sBs sBe sCs sCe
    constructor
    · intro h
      unfold findVertexCOnSideB at h
      cases hF : findGammaIntersectionPoints polygon nrOfPoints c (predecessor a nrOfPoints)
          sBs sBe sCs sCe with
      | error e1 =>
          rw [hF] at h
          have h2 : (Except.error e1 : Except String Point2f) =
            Except.error ERR_VERTEX_C_ON_SIDE_B := h
          injection h2 with h3
          have h4 : ERR_VERTEX_C_ON_SIDE_B = CV_ASSERT_POINTS_MSG :=
            h3 ▸ findGammaIntersectionPoints_error hF
          exact absurd h4 (by decide)
      | ok r =>
          rw [hF] at h
          match r, hF, h with
          | none, hF, h => rfl
          | some (ip1, ip2), hF, h =>
              have h' : (do
                  let sameSide ← areOnTheSameSideOfLine ip1
                    (pget polygon (successor c nrOfPoints)) (pget polygon c)
                    (pget polygon (predecessor c nrOfPoints))
                  pure (if sameSide then ip1 else ip2) : Except String Point2f) =
                  Except.error ERR_VERTEX_C_ON_SIDE_B := h
              cases hS : areOnTheSameSideOfLine ip1 (pget polygon (successor c nrOfPoints))
                  (pget polygon c) (pget polygon (predecessor c nrOfPoints)) with
              | error e2 =>
                  rw [hS] at h'
                  have h2 : (Except.error e2 : Except String Point2f) =
                    Except.error ERR_VERTEX_C_ON_SIDE_B := h'
                  injection h2 with h3
                  have h4 : ERR_VERTEX_C_ON_SIDE_B = CV_ASSERT_POINTS_MSG :=
                    h3 ▸ areOnTheSameSideOfLine_error hS
                  exact absurd h4 (by decide)
              | ok sameSide =>
                  rw [hS] at h'
                  exact Except.noConfusion (show (Except.ok (if sameSide then ip1 else ip2) :
                    Except String Point2f) = Except.error ERR_VERTEX_C_ON_SIDE_B from h')
    · intro hF
      unfold findVertexCOnSideB
      rw [hF]
      rfl
  · intro polygon nrOfPoints a b validationFlag sAs sAe sBs sBe sCs sCe h
    unfold isLocalMinimalTriangle
    rcases h with h | h | h
    · rw [h]
    · cases h1 : lineIntersectionPts sAs sAe sBs sBe with
      | none => rfl
      | some v1 => rw [h]
    · cases h1 : lineIntersectionPts sAs sAe sBs sBe with
      | none => rfl
      | some v1 =>
          cases h2 : lineIntersectionPts sAs sAe sCs sCe with
          | none => rfl
          | some v2 => rw [h]
  · intro polygon nrOfPoints a b validationFlag sAs sAe sBs sBe sCs sCe best h
    unfold applyCandidate
    rw [h]
  · intro fuel polygon nrOfPoints a b c best e h
    exact sweepIteration_error h
  · intro fuel polygon best e h
    exact sweepLoop_error h

/-- Counterexample to C3 as stated: `findVertexCOnSideB`, called with a
side C whose two defining vertices are distinct but closer than epsilon
(`(0,0)` and `(1e-9, 0)`), aborts with the point-coincidence assertion of
`lineEquationDeterminedByPoints` — a fatal error of the sweep that is
neither of the two named invariant violations, and not the
`ERR_VERTEX_C_ON_SIDE_B` error the claim says is the only error this
function raises. -/
theorem claim_C3_cex :
    findVertexCOnSideB [⟨0, 0⟩] 1 0 0 ⟨0, 0⟩ ⟨1, 1⟩ ⟨0, 0⟩ ⟨1 / 1000000000, 0⟩ =
      Except.error CV_ASSERT_POINTS_MSG ∧
    CV_ASSERT_POINTS_MSG ≠ ERR_VERTEX_C_ON_SIDE_B ∧
    CV_ASSERT_POINTS_MSG ≠ ERR_SIDE_B_GAMMA := by
  have hne1 : ¬ areEqualPoints (⟨0, 0⟩ : Point2f) ⟨1, 1⟩ := by
    apply not_areEqualPoints_of_x_gap <;> norm_num [abs_le, le_abs]
  have heq2 : areEqualPoints (⟨0, 0⟩ : Point2f) ⟨1 / 1000000000, 0⟩ := by
    constructor
    · unfold almostEqual maximum EPSILON
      rw [show (0 : ℝ) - 1 / 1000000000 = -(1 / 1000000000) by ring, abs_neg,
        abs_of_pos (by norm_num : (0 : ℝ) < 1 / 1000000000)]
      rw [show |(0 : ℝ)| = 0 from abs_zero]
      rw [max_eq_left (show (0 : ℝ) ≤ 1 by norm_num)]
      rw [max_eq_left (show (1 : ℝ) / 1000000000 ≤ 1 by norm_num)]
      norm_num
    · exact almostEqual_self 0
  have hp1 : lineEquationParameters (⟨0, 0⟩ : Point2f) ⟨1, 1⟩ = Except.ok ⟨1, -1, 0⟩ := by
    unfold lineEquationParameters lineEquationDeterminedByPoints
    rw [if_neg hne1]
    norm_num [LineEqParams.mk.injEq]
  have hpe : lineEquationParameters (⟨0, 0⟩ : Point2f) ⟨1 / 1000000000, 0⟩ =
      Except.error CV_ASSERT_POINTS_MSG := by
    unfold lineEquationParameters lineEquationDeterminedByPoints
    rw [if_pos heq2]
  refine ⟨?_, by decide, by decide⟩
  unfold findVertexCOnSideB findGammaIntersectionPoints
  rw [hp1, hpe]
  rfl

/-- Witness for C3: the candidate-discard part applied to a degenerate side
configuration in which sides A and B are the same line (so the first
side-pair intersection fails). -/
theorem claim_C3_witness :
    isLocalMinimalTriangle [] 0 0 0 0 ⟨0, 0⟩ ⟨1, 0⟩ ⟨0, 0⟩ ⟨1, 0⟩ ⟨0, 0⟩ ⟨0, 1⟩ = none := by
  have hdet : almostEqual ((((⟨1, 0⟩ : Point2f)).y - ((⟨0, 0⟩ : Point2f)).y) *
      (((⟨0, 0⟩ : Point2f)).x - ((⟨1, 0⟩ : Point2f)).x) -
      (((⟨1, 0⟩ : Point2f)).y - ((⟨0, 0⟩ : Point2f)).y) *
      (((⟨0, 0⟩ : Point2f)).x - ((⟨1, 0⟩ : Point2f)).x)) 0 := by
    have hz : ((((⟨1, 0⟩ : Point2f)).y - ((⟨0, 0⟩ : Point2f)).y) *
        (((⟨0, 0⟩ : Point2f)).x - ((⟨1, 0⟩ : Point2f)).x) -
        (((⟨1, 0⟩ : Point2f)).y - ((⟨0, 0⟩ : Point2f)).y) *
        (((⟨0, 0⟩ : Point2f)).x - ((⟨1, 0⟩ : Point2f)).x)) = 0 := by ring
    rw [hz]
    exact almostEqual_self 0
  have hli : lineIntersectionPts ⟨0, 0⟩ ⟨1, 0⟩ ⟨0, 0⟩ ⟨1, 0⟩ = none :=
    lineIntersectionPts_eq_none hdet
  exact claim_C3.2.2.1 [] 0 0 0 0 ⟨0, 0⟩ ⟨1, 0⟩ ⟨0, 0⟩ ⟨1, 0⟩ ⟨0, 0⟩ ⟨0, 1⟩ (Or.inl hli)

/-- Square root of 4. -/
theorem sqrt_four : Real.sqrt 4 = 2 := by
  rw [show (4 : ℝ) = 2 ^ 2 by norm_num, Real.sqrt_sq (by norm_num)]

/-- `atan2` on the positive-x half plane. -/
theorem atan2_posx (y x : ℝ) (hx : 0 < x) : atan2 y x = Real.arctan (y / x) := by
  unfold atan2
  rw [if_pos hx]

/-- `atan2` straight up. -/
theorem atan2_up (y : ℝ) (hy : 0 < y) : atan2 y 0 = Real.pi / 2 := by
  unfold atan2
  rw [if_neg (lt_irrefl 0), if_neg (lt_irrefl 0), if_pos hy]

/-- `atan2` straight down. -/
theorem atan2_down (y : ℝ) (hy : y < 0) : atan2 y 0 = -(Real.pi / 2) := by
  unfold atan2
  rw [if_neg (lt_irrefl 0), if_neg (lt_irrefl 0), if_neg (by linarith), if_pos hy]

/-- Degree conversion of `π/2`. -/
theorem pi_div_two_deg : Real.pi / 2 * 180 / Real.pi = 90 := by
  field_simp
  ring

/-- Degree conversion of `π/4`. -/
theorem pi_div_four_deg : Real.pi / 4 * 180 / Real.pi = 45 := by
  field_simp
  ring

/-- Degree conversion of `-(π/2)`. -/
theorem neg_pi_div_two_deg : -(Real.pi / 2) * 180 / Real.pi = -90 := by
  rw [neg_mul, neg_div, pi_div_two_deg]

/-- Degree conversion of `-(π/4)`. -/
theorem neg_pi_div_four_deg : -(Real.pi / 4) * 180 / Real.pi = -45 := by
  rw [neg_mul, neg_div, pi_div_four_deg]

/-- `arctan (-1)`. -/
theorem arctan_neg_one : Real.arctan (-1) = -(Real.pi / 4) := by
  rw [show (-1 : ℝ) = -(1 : ℝ) by norm_num, Real.arctan_neg, Real.arctan_one]

/-- `sign` of a negative number. -/
theorem sign_of_neg {x : ℝ} (h : x < 0) : sign x = -1 := by
  unfold sign
  rw [if_neg (by linarith), if_pos h]

/-- `sign` of a positive number. -/
theorem sign_of_pos {x : ℝ} (h : 0 < x) : sign x = 1 := by
  unfold sign
  rw [if_pos h]

/-- Evaluation of `distanceFromPointToLine` with precomputed numerator and
(squared) denominator. -/
theorem distanceFromPointToLine_eval (a linePointB linePointC : Point2f) (n d : ℝ)
    (hd : 0 < d)
    (hnum : (linePointC.x - linePointB.x) * (linePointB.y - a.y) -
      (linePointB.x - a.x) * (linePointC.y - linePointB.y) = n)
    (hden : (linePointC.x - linePointB.x) * (linePointC.x - linePointB.x) +
      (linePointC.y - linePointB.y) * (linePointC.y - linePointB.y) = d * d)
    (hn : 0 ≤ n) :
    distanceFromPointToLine a linePointB linePointC = n / d := by
  unfold distanceFromPointToLine
  dsimp only
  rw [hnum, hden]
  rw [show Real.sqrt (d * d) = d from by
    rw [Real.sqrt_mul_self (le_of_lt hd)]]
  rw [if_pos (ne_of_gt hd)]
  rw [abs_of_nonneg hn]

/-- Vertex 0 of the S2 polygon. -/
theorem cex_pget0 : pget cexPoly 0 = ⟨0, 0⟩ := rfl

/-- Vertex 1 of the S2 polygon. -/
theorem cex_pget1 : pget cexPoly 1 = ⟨2, 0⟩ := rfl

/-- Vertex 2 of the S2 polygon. -/
theorem cex_pget2 : pget cexPoly 2 = ⟨4, 2⟩ := rfl

/-- Vertex 3 of the S2 polygon. -/
theorem cex_pget3 : pget cexPoly 3 = ⟨6, 5⟩ := rfl

/-- Vertex 4 of the S2 polygon. -/
theorem cex_pget4 : pget cexPoly 4 = ⟨6, 8⟩ := rfl

/-- Vertex 5 of the S2 polygon. -/
theorem cex_pget5 : pget cexPoly 5 = ⟨4, 10⟩ := rfl

/-- Height of vertex 2 of the S2 polygon for `c = 1`. -/
theorem cex_h2 : height 2 cexPoly 6 1 = 2 := by
  unfold height
  rw [show predecessor 1 6 = 0 from rfl, cex_pget2, cex_pget1, cex_pget0]
  rw [distanceFromPointToLine_eval ⟨4, 2⟩ ⟨2, 0⟩ ⟨0, 0⟩ 4 2 (by norm_num) (by norm_num)
    (by norm_num) (by norm_num)]
  norm_num

/-- Height of vertex 3 of the S2 polygon for `c = 1`. -/
theorem cex_h3 : height 3 cexPoly 6 1 = 5 := by
  unfold height
  rw [show predecessor 1 6 = 0 from rfl, cex_pget3, cex_pget1, cex_pget0]
  rw [distanceFromPointToLine_eval ⟨6, 5⟩ ⟨2, 0⟩ ⟨0, 0⟩ 10 2 (by norm_num) (by norm_num)
    (by norm_num) (by norm_num)]
  norm_num

/-- Height of vertex 4 of the S2 polygon for `c = 1`. -/
theorem cex_h4 : height 4 cexPoly 6 1 = 8 := by
  unfold height
  rw [show predecessor 1 6 = 0 from rfl, cex_pget4, cex_pget1, cex_pget0]
  rw [distanceFromPointToLine_eval ⟨6, 8⟩ ⟨2, 0⟩ ⟨0, 0⟩ 16 2 (by norm_num) (by norm_num)
    (by norm_num) (by norm_num)]
  norm_num

/-- Direction angle of the flush edge `P0 → P1` of the S2 polygon. -/
theorem cex_angle_flush : angleOfLineWrtOxAxis ⟨0, 0⟩ ⟨2, 0⟩ = 0 := by
  unfold angleOfLineWrtOxAxis
  dsimp only
  have ht : atan2 ((0 : ℝ) - 0) ((2 : ℝ) - 0) = 0 := by
    rw [show ((0 : ℝ) - 0) = 0 by norm_num, show ((2 : ℝ) - 0) = 2 by norm_num,
      atan2_posx 0 2 (by norm_num), show (0 : ℝ) / 2 = 0 by norm_num, Real.arctan_zero]
  rw [ht, show (0 : ℝ) * 180 / Real.pi = 0 by simp]
  rw [if_neg (lt_irrefl 0)]

/-- Direction angle of the edge `P3 → P4` of the S2 polygon. -/
theorem cex_angle_pred : angleOfLineWrtOxAxis ⟨6, 5⟩ ⟨6, 8⟩ = 90 := by
  unfold angleOfLineWrtOxAxis
  dsimp only
  have ht : atan2 ((8 : ℝ) - 5) ((6 : ℝ) - 6) = Real.pi / 2 := by
    rw [show ((8 : ℝ) - 5) = 3 by norm_num, show ((6 : ℝ) - 6) = 0 by norm_num,
      atan2_up 3 (by norm_num)]
  rw [ht, pi_div_two_deg]
  rw [if_neg (by norm_num : ¬ (90 : ℝ) < 0)]

/-- Direction angle of the segment `P5 → P4` of the S2 polygon. -/
theorem cex_angle_succ : angleOfLineWrtOxAxis ⟨4, 10⟩ ⟨6, 8⟩ = 315 := by
  unfold angleOfLineWrtOxAxis
  dsimp only
  have ht : atan2 ((8 : ℝ) - 10) ((6 : ℝ) - 4) = -(Real.pi / 4) := by
    rw [show ((8 : ℝ) - 10) = -2 by norm_num, show ((6 : ℝ) - 4) = 2 by norm_num,
      atan2_posx (-2) 2 (by norm_num), show (-2 : ℝ) / 2 = -1 by norm_num, arctan_neg_one]
  rw [ht, neg_pi_div_four_deg]
  rw [if_pos (by norm_num : (-45 : ℝ) < 0)]
  norm_num

/-- Direction angle of the segment from `P4` to the gamma point `(6, 4)`. -/
theorem cex_angle_code : angleOfLineWrtOxAxis ⟨6, 8⟩ ⟨6, 4⟩ = 270 := by
  unfold angleOfLineWrtOxAxis
  dsimp only
  have ht : atan2 ((4 : ℝ) - 8) ((6 : ℝ) - 6) = -(Real.pi / 2) := by
    rw [show ((4 : ℝ) - 8) = -4 by norm_num, show ((6 : ℝ) - 6) = 0 by norm_num,
      atan2_down (-4) (by norm_num)]
  rw [ht, neg_pi_div_two_deg]
  rw [if_pos (by norm_num : (-90 : ℝ) < 0)]
  norm_num

/-- Direction angle of the segment from `P2` to the gamma point `(6, 4)`
(the direction of side A). -/
theorem cex_angle_spec : angleOfLineWrtOxAxis ⟨4, 2⟩ ⟨6, 4⟩ = 45 := by
  unfold angleOfLineWrtOxAxis
  dsimp only
  have ht : atan2 ((4 : ℝ) - 2) ((6 : ℝ) - 4) = Real.pi / 4 := by
    rw [show ((4 : ℝ) - 2) = 2 by norm_num, show ((6 : ℝ) - 4) = 2 by norm_num,
      atan2_posx 2 2 (by norm_num), show (2 : ℝ) / 2 = 1 by norm_num, Real.arctan_one]
  rw [ht, pi_div_four_deg]
  rw [if_neg (by norm_num : ¬ (45 : ℝ) < 0)]

/-- The angle 45 lies between 90 and 0 in the non-reflex sense. -/
theorem cex_btw_45_90_0 : isGammaAngleBtw 45 90 0 := by
  show isAngleBetweenNonReflex 45 90 0
  unfold isAngleBetweenNonReflex isAngleBetween castToInt
  rw [show (90 : ℝ) - 0 = 90 by norm_num]
  rw [abs_of_pos (by norm_num : (0 : ℝ) < 90)]
  rw [if_neg (by norm_num : ¬ (90 : ℝ) > 180)]
  rw [if_pos (by norm_num : (0 : ℝ) ≤ 90)]
  rw [show ⌊(90 : ℝ)⌋ = 90 by norm_num]
  rw [tmod180_of_nonneg (by norm_num) (by norm_num)]
  rw [if_pos (by norm_num : (90 : ℤ) > 0)]
  constructor <;> norm_num

/-- The angle 270 does not lie between 90 and 0 in the non-reflex sense. -/
theorem cex_nbtw_270_90_0 : ¬ isGammaAngleBtw 270 90 0 := by
  intro hcon
  have hchar : isAngleBetweenNonReflex 270 90 0 ↔ ((0 : ℝ) < 270 ∧ (270 : ℝ) < 90) := by
    unfold isAngleBetweenNonReflex isAngleBetween castToInt
    rw [show (90 : ℝ) - 0 = 90 by norm_num]
    rw [abs_of_pos (by norm_num : (0 : ℝ) < 90)]
    rw [if_neg (by norm_num : ¬ (90 : ℝ) > 180)]
    rw [if_pos (by norm_num : (0 : ℝ) ≤ 90)]
    rw [show ⌊(90 : ℝ)⌋ = 90 by norm_num]
    rw [tmod180_of_nonneg (by norm_num) (by norm_num)]
    rw [if_pos (by norm_num : (90 : ℤ) > 0)]
  exact absurd (hchar.mp hcon).2 (by norm_num)

/-- The angle 270 does not lie between 315 and 0 in the non-reflex sense. -/
theorem cex_nbtw_270_315_0 : ¬ isGammaAngleBtw 270 315 0 := by
  intro hcon
  have hchar : isAngleBetweenNonReflex 270 315 0 ↔
      (((315 : ℝ) < 270 ∧ lessOrEqual 270 360) ∨ (lessOrEqual 0 270 ∧ (270 : ℝ) < 0)) := by
    unfold isAngleBetweenNonReflex
    rw [show (315 : ℝ) - 0 = 315 by norm_num]
    rw [abs_of_pos (by norm_num : (0 : ℝ) < 315)]
    rw [if_pos (by norm_num : (315 : ℝ) > 180)]
    rw [if_pos (by norm_num : (315 : ℝ) > 0)]
  rcases hchar.mp hcon with ⟨h, -⟩ | ⟨-, h⟩ <;> norm_num at h

/-- The flush angle 0 lies in the non-reflex arc between 90 and 315, so
`isFlushAngleBtwPredAndSucc` keeps it unchanged. -/
theorem cex_flush_btw : isFlushAngleBtwPredAndSucc 0 90 315 = some 0 := by
  unfold isFlushAngleBtwPredAndSucc
  rw [if_pos ?habnr]
  case habnr =>
    unfold isAngleBetweenNonReflex
    rw [if_pos (show |(90 : ℝ) - 315| > 180 by
      rw [show (90 : ℝ) - 315 = -225 by norm_num,
        abs_of_neg (by norm_num : (-225 : ℝ) < 0)]
      norm_num)]
    rw [if_neg (by norm_num : ¬ (90 : ℝ) > 315)]
    exact Or.inr ⟨Or.inr (almostEqual_self 0), by norm_num⟩

/-- A line of direction 45 through vertex 4 of the S2 polygon is classified
as intersecting BELOW (it enters through the predecessor chain, whose
height is smaller). -/
theorem cex_intersects_45 : intersects 45 4 cexPoly 6 1 = INTERSECTS_BELOW := by
  unfold intersects
  dsimp only
  rw [show predecessor 4 6 = 3 from rfl, show successor 4 6 = 5 from rfl,
    show predecessor 1 6 = 0 from rfl, cex_pget3, cex_pget4, cex_pget5, cex_pget0, cex_pget1,
    cex_angle_pred, cex_angle_succ, cex_angle_flush]
  rw [cex_flush_btw]
  dsimp only
  rw [if_pos (Or.inl cex_btw_45_90_0)]
  unfold intersectsAboveOrBelow
  rw [cex_h3, cex_h4]
  rw [if_neg (by norm_num : ¬ (5 : ℝ) > 8)]

/-- A line of direction 270 through vertex 4 of the S2 polygon is classified
as CRITICAL. -/
theorem cex_intersects_270 : intersects 270 4 cexPoly 6 1 = INTERSECTS_CRITICAL := by
  have hnae1 : ¬ almostEqual 270 90 :=
    not_almostEqual_of_gap (by norm_num [abs_le]) (by norm_num [abs_le]) (by norm_num [le_abs])
  have hnae2 : ¬ almostEqual 270 315 :=
    not_almostEqual_of_gap (by norm_num [abs_le]) (by norm_num [abs_le]) (by norm_num [le_abs])
  unfold intersects
  dsimp only
  rw [show predecessor 4 6 = 3 from rfl, show successor 4 6 = 5 from rfl,
    show predecessor 1 6 = 0 from rfl, cex_pget3, cex_pget4, cex_pget5, cex_pget0, cex_pget1,
    cex_angle_pred, cex_angle_succ, cex_angle_flush]
  rw [cex_flush_btw]
  dsimp only
  rw [if_neg (show ¬ (isGammaAngleBtw 270 90 0 ∨ almostEqual 270 90) by
    rintro (h | h)
    · exact cex_nbtw_270_90_0 h
    · exact hnae1 h)]
  rw [if_neg (show ¬ (isGammaAngleBtw 270 315 0 ∨ almostEqual 270 315) by
    rintro (h | h)
    · exact cex_nbtw_270_315_0 h
    · exact hnae2 h)]

/-- Gamma of vertex 2 on the S2 polygon (`a = 2`, `c = 1`): the point on
side A at height `2 * height(2) = 4` above side C, on the polygon's side. -/
theorem cex_gamma : gamma 2 cexPoly 6 2 1 = Except.ok (some ⟨6, 4⟩) := by
  have hne1 : ¬ areEqualPoints (⟨4, 2⟩ : Point2f) ⟨2, 0⟩ := by
    apply not_areEqualPoints_of_x_gap <;> norm_num [abs_le, le_abs]
  have hne2 : ¬ areEqualPoints (⟨2, 0⟩ : Point2f) ⟨0, 0⟩ := by
    apply not_areEqualPoints_of_x_gap <;> norm_num [abs_le, le_abs]
  have hp1 : lineEquationParameters (⟨4, 2⟩ : Point2f) ⟨2, 0⟩ = Except.ok ⟨-2, 2, 4⟩ := by
    unfold lineEquationParameters lineEquationDeterminedByPoints
    rw [if_neg hne1]
    norm_num [LineEqParams.mk.injEq]
  have hp2 : lineEquationParameters (⟨2, 0⟩ : Point2f) ⟨0, 0⟩ = Except.ok ⟨0, 2, 0⟩ := by
    unfold lineEquationParameters lineEquationDeterminedByPoints
    rw [if_neg hne2]
    norm_num [LineEqParams.mk.injEq]
  have hextra : 2 * height 2 cexPoly 6 1 * Real.sqrt ((0 : ℝ) * 0 + 2 * 2) = 8 := by
    rw [cex_h2, show ((0 : ℝ) * 0 + 2 * 2) = 4 by norm_num, sqrt_four]
    norm_num
  have hdetne : ¬ almostEqual ((-2 : ℝ) * 2 - 0 * 2) 0 := by
    rw [show ((-2 : ℝ) * 2 - 0 * 2) = -4 by norm_num]
    exact not_almostEqual_of_gap (by norm_num [abs_le]) (by norm_num [abs_le])
      (by norm_num [le_abs])
  have hI : areIntersectingLines ⟨-2, 2, 4⟩ ⟨0, 2, 0⟩
      (2 * height 2 cexPoly 6 1 * Real.sqrt ((0 : ℝ) * 0 + 2 * 2)) =
      some (⟨-2, -4⟩, ⟨6, 4⟩) := by
    rw [hextra]
    unfold areIntersectingLines
    dsimp only
    rw [lineIntersection_eq_some hdetne, lineIntersection_eq_some hdetne]
    norm_num [Point2f.mk.injEq, Prod.mk.injEq]
  have hnae4 : ¬ almostEqual ((-2 : ℝ) * 2) ((0 : ℝ) * 2) := by
    rw [show ((-2 : ℝ) * 2) = -4 by norm_num, show ((0 : ℝ) * 2) = 0 by norm_num]
    exact not_almostEqual_of_gap (by norm_num [abs_le]) (by norm_num [abs_le])
      (by norm_num [le_abs])
  have hid : ¬ areIdenticalLinesP ⟨-2, 2, 4⟩ ⟨0, 2, 0⟩
      (2 * height 2 cexPoly 6 1 * Real.sqrt ((0 : ℝ) * 0 + 2 * 2)) := by
    rintro (⟨ha, -, -⟩ | ⟨ha, -, -⟩) <;> exact hnae4 ha
  obtain ⟨-, h2⟩ := findGamma_char cexPoly 6 1 2 ⟨4, 2⟩ ⟨2, 0⟩ ⟨2, 0⟩ ⟨0, 0⟩
    ⟨-2, 2, 4⟩ ⟨0, 2, 0⟩ hp1 hp2
  have hF : findGammaIntersectionPoints cexPoly 6 1 2 ⟨4, 2⟩ ⟨2, 0⟩ ⟨2, 0⟩ ⟨0, 0⟩ =
      Except.ok (some (⟨-2, -4⟩, ⟨6, 4⟩)) := by
    rw [h2 (⟨-2, -4⟩, ⟨6, 4⟩) hI]
    rw [if_neg hid]
  have hss : ¬ (sign ((0 : ℝ) * (-2) + 2 * (-4) + 0) =
      sign ((0 : ℝ) * 4 + 2 * 2 + 0)) := by
    rw [show ((0 : ℝ) * (-2) + 2 * (-4) + 0) = -8 by norm_num,
      show ((0 : ℝ) * 4 + 2 * 2 + 0) = 4 by norm_num]
    rw [sign_of_neg (by norm_num : (-8 : ℝ) < 0), sign_of_pos (by norm_num : (0 : ℝ) < 4)]
    decide
  have hS : areOnTheSameSideOfLine ⟨-2, -4⟩ ⟨4, 2⟩ ⟨2, 0⟩ ⟨0, 0⟩ =
      Except.ok (sign ((0 : ℝ) * (-2) + 2 * (-4) + 0) =
        sign ((0 : ℝ) * 4 + 2 * 2 + 0)) := by
    unfold areOnTheSameSideOfLine
    rw [show lineEquationDeterminedByPoints (⟨2, 0⟩ : Point2f) ⟨0, 0⟩ =
      Except.ok ⟨0, 2, 0⟩ from hp2]
    rfl
  unfold gamma
  rw [show predecessor 2 6 = 1 from rfl, show predecessor 1 6 = 0 from rfl,
    show successor 1 6 = 2 from rfl, cex_pget2, cex_pget1, cex_pget0]
  rw [hF]
  have hgoal : (do
      let sameSide ← areOnTheSameSideOfLine (⟨-2, -4⟩ : Point2f) ⟨4, 2⟩ ⟨2, 0⟩ ⟨0, 0⟩
      pure (some (if sameSide then (⟨-2, -4⟩ : Point2f) else ⟨6, 4⟩)) :
      Except String (Option Point2f)) = Except.ok (some ⟨6, 4⟩) := by
    rw [hS, eq_false hss]
    exact (show (Except.ok (some (@ite Point2f False (Classical.propDecidable False)
      ⟨-2, -4⟩ ⟨6, 4⟩)) : Except String (Option Point2f)) = Except.ok (some ⟨6, 4⟩)
      from by rw [if_neg not_false])
  exact hgoal

/-- Characterisation of one `moveAIfLowAndBIfHigh` loop body, given the
result of `gamma(a)`. -/
theorem moveABStep_char (polygon : Poly) (nrOfPoints a b c : ℕ) (go : Option Point2f)
    (hg : gamma a polygon nrOfPoints a c = Except.ok go) :
    moveABStep polygon nrOfPoints a b c =
      if ∃ g, go = some g ∧ intersectsBelow g b polygon nrOfPoints c then
        Except.ok (a, advance b nrOfPoints)
      else
        Except.ok (advance a nrOfPoints, b) := by
  unfold moveABStep
  rw [hg]
  cases go with
  | none =>
      rw [if_neg (show ¬ ∃ g, (none : Option Point2f) = some g ∧
        intersectsBelow g b polygon nrOfPoints c by
          rintro ⟨g, hgg, -⟩
          exact Option.noConfusion hgg)]
  | some g =>
      by_cases hib : intersectsBelow g b polygon nrOfPoints c
      · rw [if_pos ⟨g, rfl, hib⟩]
        exact (show (if intersectsBelow g b polygon nrOfPoints c then
            (Except.ok (a, advance b nrOfPoints) : Except String (ℕ × ℕ))
          else Except.ok (advance a nrOfPoints, b)) = Except.ok (a, advance b nrOfPoints)
          from by rw [if_pos hib])
      · rw [if_neg (show ¬ ∃ g2, (some g : Option Point2f) = some g2 ∧
          intersectsBelow g2 b polygon nrOfPoints c by
            rintro ⟨g2, hg2, hib2⟩
            injection hg2 with h
            subst h
            exact hib hib2)]
        exact (show (if intersectsBelow g b polygon nrOfPoints c then
            (Except.ok (a, advance b nrOfPoints) : Except String (ℕ × ℕ))
          else Except.ok (advance a nrOfPoints, b)) = Except.ok (advance a nrOfPoints, b)
          from by rw [if_neg hib])

/-- C2 (amended): the S2 loop runs exactly while `height(b) > height(a)`;
in each iteration, when `gamma(a)` is computed without trapping, `b` is
advanced precisely when `gamma(a)` exists and the line through `gamma(a)`
and `P[b]` intersects the polygon BELOW at `b`, and `a` is advanced in
every other case; and on normal exit the guard is false. -/
theorem claim_C2 :
    (∀ (fuel : ℕ) (polygon : Poly) (nrOfPoints a b c : ℕ) (go : Option Point2f),
      gamma a polygon nrOfPoints a c = Except.ok go →
      moveAIfLowAndBIfHigh (fuel + 1) polygon nrOfPoints a b c =
        (if height b polygon nrOfPoints c > height a polygon nrOfPoints c then
          (if ∃ g, go = some g ∧ intersectsBelow g b polygon nrOfPoints c then
            moveAIfLowAndBIfHigh fuel polygon nrOfPoints a (advance b nrOfPoints) c
          else
            moveAIfLowAndBIfHigh fuel polygon nrOfPoints (advance a nrOfPoints) b c)
        else some (Except.ok (a, b)))) ∧
    (∀ (fuel : ℕ) (polygon : Poly) (nrOfPoints a b c a1 b1 : ℕ),
      moveAIfLowAndBIfHigh fuel polygon nrOfPoints a b c = some (Except.ok (a1, b1)) →
      ¬ height b1 polygon nrOfPoints c > height a1 polygon nrOfPoints c) := by
  constructor
  · intro fuel polygon nrOfPoints a b c go hg
    conv_lhs => rw [moveAIfLowAndBIfHigh]
    rw [moveABStep_char polygon nrOfPoints a b c go hg]
    by_cases hguard : height b polygon nrOfPoints c > height a polygon nrOfPoints c
    · rw [if_pos hguard, if_pos hguard]
      by_cases hex : ∃ g, go = some g ∧ intersectsBelow g b polygon nrOfPoints c
      · rw [if_pos hex, if_pos hex]
      · rw [if_neg hex, if_neg hex]
    · rw [if_neg hguard, if_neg hguard]
  · intro fuel
    induction fuel with
    | zero =>
        intro polygon nrOfPoints a b c a1 b1 h
        exact Option.noConfusion (show (none : Option (Except String (ℕ × ℕ))) =
          some (Except.ok (a1, b1)) from h)
    | succ fuel ih =>
        intro polygon nrOfPoints a b c a1 b1 h
        unfold moveAIfLowAndBIfHigh at h
        split_ifs at h with hguard
        · cases hstep : moveABStep polygon nrOfPoints a b c with
          | error e =>
              rw [hstep] at h
              have h2 : (some (Except.error e) : Option (Except String (ℕ × ℕ))) =
                some (Except.ok (a1, b1)) := h
              injection h2 with h3
              exact Except.noConfusion h3
          | ok ab =>
              rw [hstep] at h
              exact ih polygon nrOfPoints ab.1 ab.2 c a1 b1
                (show moveAIfLowAndBIfHigh fuel polygon nrOfPoints ab.1 ab.2 c =
                  some (Except.ok (a1, b1)) from h)
        · have h2 : (some (Except.ok (a, b)) : Option (Except String (ℕ × ℕ))) =
            some (Except.ok (a1, b1)) := h
          injection h2 with h3
          injection h3 with h4
          simp only [Prod.mk.injEq] at h4
          obtain ⟨h5, h6⟩ := h4
          subst h5
          subst h6
          exact hguard

/-- Counterexample to C2 as stated: on the convex CCW hexagon `cexPoly`
with `c = 1`, `a = 2`, `b = 4`, the loop guard holds and `gamma(a) = (6,4)`
exists; the line through `P[a] = (4,2)` and `gamma(a)` (the claim's
condition) intersects BELOW at `b`, so the claim predicts that `b` is
advanced — but the loop body advances `a` (the code classifies the line
through `P[b] = (6,8)` and `gamma(a)`, which is CRITICAL, not BELOW). -/
theorem claim_C2_cex :
    height 4 cexPoly 6 1 > height 2 cexPoly 6 1 ∧
    gamma 2 cexPoly 6 2 1 = Except.ok (some ⟨6, 4⟩) ∧
    intersects (angleOfLineWrtOxAxis (pget cexPoly 2) ⟨6, 4⟩) 4 cexPoly 6 1 =
      INTERSECTS_BELOW ∧
    moveABStep cexPoly 6 2 4 1 = Except.ok (3, 4) ∧
    ((3, 4) : ℕ × ℕ) ≠ (2, advance 4 6) := by
  have hguard : height 4 cexPoly 6 1 > height 2 cexPoly 6 1 := by
    rw [cex_h4, cex_h2]
    norm_num
  have hnib : ¬ intersectsBelow ⟨6, 4⟩ 4 cexPoly 6 1 := by
    unfold intersectsBelow
    rw [cex_pget4, cex_angle_code, cex_intersects_270]
    decide
  have hstep : moveABStep cexPoly 6 2 4 1 = Except.ok (3, 4) := by
    unfold moveABStep
    rw [cex_gamma]
    exact (show (if intersectsBelow (⟨6, 4⟩ : Point2f) 4 cexPoly 6 1 then
        (Except.ok (2, advance 4 6) : Except String (ℕ × ℕ))
      else Except.ok (advance 2 6, 4)) = Except.ok (3, 4) from by
        rw [if_neg hnib]
        rfl)
  refine ⟨hguard, cex_gamma, ?_, hstep, by decide⟩
  rw [cex_pget2, cex_angle_spec]
  exact cex_intersects_45

/-- Witness for C2: the amended loop-body description applied on the
concrete S2 state `(cexPoly, c = 1, a = 2, b = 4)`, where the guard holds,
`gamma(a)` exists and the code's BELOW test fails, so the loop recurses
with `a` advanced. -/
theorem claim_C2_witness :
    moveAIfLowAndBIfHigh 1 cexPoly 6 2 4 1 = moveAIfLowAndBIfHigh 0 cexPoly 6 3 4 1 := by
  rw [claim_C2.1 0 cexPoly 6 2 4 1 (some ⟨6, 4⟩) cex_gamma]
  have hguard : height 4 cexPoly 6 1 > height 2 cexPoly 6 1 := by
    rw [cex_h4, cex_h2]
    norm_num
  have hnib : ¬ intersectsBelow ⟨6, 4⟩ 4 cexPoly 6 1 := by
    unfold intersectsBelow
    rw [cex_pget4, cex_angle_code, cex_intersects_270]
    decide
  rw [if_pos hguard]
  rw [if_neg (show ¬ ∃ g, (some (⟨6, 4⟩ : Point2f) : Option Point2f) = some g ∧
    intersectsBelow g 4 cexPoly 6 1 by
      rintro ⟨g, hgg, hib⟩
      injection hgg with h
      subst h
      exact hnib hib)]
  rfl

end

end MET
